import Mathlib

/-!
Verification of the citation-validator core (APA 7th citation parser, rule
engine, auto-fix / reconstruction engine and compliance scoring) against its
natural-language specification.  The TypeScript sources are shallowly embedded:
JavaScript strings become `String` / `List Char`, the JS regular expressions
used by the parser and the rules are embedded via a small backtracking regex
interpreter with JS semantics (leftmost match, ordered alternation,
greedy/lazy quantifiers, numbered capture groups), and JS `number` arithmetic
in the scoring routine becomes exact rational arithmetic (all values involved
are small multiples of 1/2, hence exactly representable in both).
-/

namespace CV

abbrev Chars := List Char

/-- Capture groups of a regex match: group index paired with matched text. -/
abbrev Caps := List (Nat × Chars)

/-- Result of a regex run: remaining input after the match plus captures. -/
abbrev MRes := Chars × Caps

/-- ASCII lower-casing, as used for the JS `i` regex flag on ASCII literals. -/
def lowerAscii (c : Char) : Char :=
  if 'A' ≤ c && c ≤ 'Z' then Char.ofNat (c.toNat + 32) else c

/-- ASCII upper-casing (JS `toUpperCase` restricted to ASCII letters). -/
def upperAscii (c : Char) : Char :=
  if 'a' ≤ c && c ≤ 'z' then Char.ofNat (c.toNat - 32) else c

/-- The JS `\s` character class (whitespace), restricted to the code points
relevant here. -/
def jsSpace (c : Char) : Bool :=
  c = ' ' || c = '\t' || c = '\n' || c = '\r' ||
  c = Char.ofNat 11 || c = Char.ofNat 12 || c = Char.ofNat 0xA0 ||
  c = Char.ofNat 0x2028 || c = Char.ofNat 0x2029 || c = Char.ofNat 0xFEFF

def isDigitC (c : Char) : Bool := '0' ≤ c && c ≤ '9'

def isUpperAZ (c : Char) : Bool := 'A' ≤ c && c ≤ 'Z'

def isLowerAZ (c : Char) : Bool := 'a' ≤ c && c ≤ 'z'

def isAsciiLetter (c : Char) : Bool := isUpperAZ c || isLowerAZ c

/-- The JS `\w` character class. -/
def isWordC (c : Char) : Bool := isAsciiLetter c || isDigitC c || c = '_'

/-- The JS `.` (dot) without the `s` flag: anything but a line terminator. -/
def dotC (c : Char) : Bool :=
  !(c = '\n' || c = '\r' || c = Char.ofNat 0x2028 || c = Char.ofNat 0x2029)

/-- Regular expressions, shaped after the constructs the sources use.
Character-class quantifiers get dedicated constructors so that matching them
is structurally recursive; `starC` (star over a composite body) is run with
fuel. -/
inductive Re where
  | eps
  | pred (p : Char → Bool)
  | lit (s : Chars)
  | litCI (s : Chars)
  | cat (a b : Re)
  | alt (a b : Re)
  | opt (lzy : Bool) (a : Re)
  | starP (lzy : Bool) (p : Char → Bool)
  | plusP (lzy : Bool) (p : Char → Bool)
  | repP (lo hi : Nat) (p : Char → Bool)
  | starC (a : Re)
  | group (idx : Nat) (a : Re)
  | endAnchor
deriving Inhabited

/-- Match a literal prefix, returning the remaining input. -/
def dropLit : Chars → Chars → Option Chars
  | [], s => some s
  | _ :: _, [] => none
  | c :: l, c' :: s => if c = c' then dropLit l s else none

/-- Match a literal prefix up to ASCII case, returning the remaining input. -/
def dropLitCI : Chars → Chars → Option Chars
  | [], s => some s
  | _ :: _, [] => none
  | c :: l, c' :: s => if lowerAscii c = lowerAscii c' then dropLitCI l s else none

/-- Greedy `p*`: consume as many `p`-characters as possible, backtracking to
shorter runs if the continuation fails. -/
def chompStarG (p : Char → Bool) : Chars → (Chars → Option MRes) → Option MRes
  | [], k => k []
  | c :: rest, k =>
    if p c then (chompStarG p rest k).orElse (fun _ => k (c :: rest))
    else k (c :: rest)

/-- Lazy `p*?`: try the continuation first, then consume one more `p`-char. -/
def chompStarL (p : Char → Bool) : Chars → (Chars → Option MRes) → Option MRes
  | [], k => k []
  | c :: rest, k =>
    (k (c :: rest)).orElse (fun _ => if p c then chompStarL p rest k else none)

/-- Consume exactly `n` `p`-characters. -/
def chompExact (p : Char → Bool) : Nat → Chars → (Chars → Option MRes) → Option MRes
  | 0, s, k => k s
  | _ + 1, [], _ => none
  | n + 1, c :: rest, k => if p c then chompExact p n rest k else none

/-- Greedily consume up to `n` further `p`-characters, with backtracking. -/
def chompUpTo (p : Char → Bool) : Nat → Chars → (Chars → Option MRes) → Option MRes
  | 0, s, k => k s
  | _ + 1, [], k => k []
  | n + 1, c :: rest, k =>
    if p c then (chompUpTo p n rest k).orElse (fun _ => k (c :: rest))
    else k (c :: rest)

/-- One structural layer of the backtracking regex interpreter, in
continuation-passing style, following JS semantics: ordered alternation,
greedy/lazy quantifiers, numbered capture groups recorded when the group
closes.  `recur` re-enters the interpreter (one fuel level down) for
composite-star iterations. -/
def mrunGo (recur : Re → Chars → Caps → (Chars → Caps → Option MRes) → Option MRes) :
    Re → Chars → Caps → (Chars → Caps → Option MRes) → Option MRes
  | .eps, s, caps, k => k s caps
  | .pred p, s, caps, k =>
    match s with
    | c :: rest => if p c then k rest caps else none
    | [] => none
  | .lit l, s, caps, k =>
    match dropLit l s with
    | some rest => k rest caps
    | none => none
  | .litCI l, s, caps, k =>
    match dropLitCI l s with
    | some rest => k rest caps
    | none => none
  | .cat a b, s, caps, k => mrunGo recur a s caps (fun s' caps' => mrunGo recur b s' caps' k)
  | .alt a b, s, caps, k => (mrunGo recur a s caps k).orElse (fun _ => mrunGo recur b s caps k)
  | .opt lzy a, s, caps, k =>
    if lzy then (k s caps).orElse (fun _ => mrunGo recur a s caps k)
    else (mrunGo recur a s caps k).orElse (fun _ => k s caps)
  | .starP lzy p, s, caps, k =>
    if lzy then chompStarL p s (fun s' => k s' caps)
    else chompStarG p s (fun s' => k s' caps)
  | .plusP lzy p, s, caps, k =>
    match s with
    | c :: rest =>
      if p c then
        if lzy then chompStarL p rest (fun s' => k s' caps)
        else chompStarG p rest (fun s' => k s' caps)
      else none
    | [] => none
  | .repP lo hi p, s, caps, k =>
    chompExact p lo s (fun s1 => chompUpTo p (hi - lo) s1 (fun s2 => k s2 caps))
  | .starC a, s, caps, k =>
    (mrunGo recur a s caps (fun s' caps' =>
      if s'.length < s.length then recur (.starC a) s' caps' k
      else none)).orElse (fun _ => k s caps)
  | .group i a, s, caps, k =>
    mrunGo recur a s caps (fun s' caps' =>
      k s' ((i, s.take (s.length - s'.length)) :: caps'))
  | .endAnchor, s, caps, k =>
    match s with
    | [] => k [] caps
    | _ :: _ => none

/-- The fuelled interpreter.  `fuel` bounds the total iterations of composite
stars (whose bodies always consume input here, so any fuel of at least
`input length + 1` is enough). -/
def mrun : Nat → Re → Chars → Caps → (Chars → Caps → Option MRes) → Option MRes
  | 0, _, _, _, _ => none
  | fuel + 1, re, s, caps, k => mrunGo (mrun fuel) re s caps k

/-- Fuel that is always sufficient for the composite stars appearing here
(each iteration consumes at least one character). -/
def reFuel (s : Chars) : Nat := s.length + 16

/-- Anchored match at the start of `s` (the JS `^...` case): remaining input
and captures of the first (leftmost-choice) match. -/
def reMatchA (re : Re) (s : Chars) : Option MRes :=
  mrun (reFuel s) re s [] (fun rest caps => some (rest, caps))

/-- Leftmost regex search: index, matched text, captures, input after match. -/
def searchAux (re : Re) (full : Chars) : Chars → Nat → Option (Nat × Chars × Caps × Chars)
  | s, idx =>
    match mrun (reFuel full) re s [] (fun rest caps => some (rest, caps)) with
    | some (rest, caps) => some (idx, s.take (s.length - rest.length), caps, rest)
    | none =>
      match s with
      | [] => none
      | _ :: tail => searchAux re full tail (idx + 1)

/-- JS `string.match(re)` for an unanchored regex: leftmost match. -/
def reSearch (re : Re) (s : Chars) : Option (Nat × Chars × Caps × Chars) :=
  searchAux re s s 0

/-- JS `re.test(s)` for an unanchored regex. -/
def reTest (re : Re) (s : Chars) : Bool := (reSearch re s).isSome

/-- JS non-global `string.replace(re, repl)`: replace the leftmost match. -/
def reReplaceFirst (re : Re) (repl : Chars) (s : Chars) : Chars :=
  match reSearch re s with
  | some (idx, _, _, rest) => s.take idx ++ repl ++ rest
  | none => s

/-- Look up capture group `i` of a match (`m[i]`, `undefined` = `none`). -/
def capGet (caps : Caps) (i : Nat) : Option Chars :=
  (caps.find? (fun x => x.1 = i)).map (·.2)

/-! ### JS string helpers -/

/-- Leading JS whitespace removed. -/
def trimLeft (s : Chars) : Chars := s.dropWhile jsSpace

/-- JS `String.prototype.trim`. -/
def jsTrimC (s : Chars) : Chars := ((trimLeft s).reverse.dropWhile jsSpace).reverse

def jsTrim (s : String) : String := String.mk (jsTrimC s.data)

/-- Does `pre` occur as a prefix of `s`? -/
def isPrefixC : Chars → Chars → Bool
  | [], _ => true
  | _ :: _, [] => false
  | c :: l, c' :: s => c = c' && isPrefixC l s

/-- First index at which `needle` occurs in `hay` (JS `indexOf`). -/
def indexOfSub (hay needle : Chars) : Option Nat :=
  match hay with
  | [] => if needle.isEmpty then some 0 else none
  | _ :: tail =>
    if isPrefixC needle hay then some 0
    else (indexOfSub tail needle).map (· + 1)

/-- JS `string.includes(sub)`. -/
def includesSub (hay needle : Chars) : Bool := (indexOfSub hay needle).isSome

/-- JS `string.replace(plainString, repl)`: replace the first occurrence. -/
def replaceFirstSub (s needle repl : Chars) : Chars :=
  match indexOfSub s needle with
  | some i => s.take i ++ repl ++ s.drop (i + needle.length)
  | none => s

/-- JS `string.startsWith(pre)` on `String`. -/
def jsStartsWith (s pre : String) : Bool := isPrefixC pre.data s.data

/-- JS `string.endsWith(suf)` on `String`. -/
def jsEndsWith (s suf : String) : Bool := isPrefixC suf.data.reverse s.data.reverse

def jsIncludes (s sub : String) : Bool := includesSub s.data sub.data

/-- ASCII `toLowerCase`. -/
def jsToLower (s : String) : String := String.mk (s.data.map lowerAscii)

/-- JS `parseInt(s, 10)` restricted to an optional sign and leading digits
after leading whitespace; `none` models `NaN`. -/
def jsParseInt (s : String) : Option Int :=
  let t := trimLeft s.data
  let (sign, t) : Int × Chars :=
    match t with
    | '-' :: r => (-1, r)
    | '+' :: r => (1, r)
    | r => (1, r)
  let digits := t.takeWhile isDigitC
  if digits.isEmpty then none
  else some (sign * (digits.foldl (fun a c => a * 10 + (c.toNat - '0'.toNat)) 0 : Nat))

/-- Digits of a trailing `(\d+)`-style capture as a `Nat` (inputs here are
plain digit strings). -/
def natOfDigits (s : Chars) : Nat :=
  s.foldl (fun a c => a * 10 + (c.toNat - '0'.toNat)) 0

/-- JS truthiness of an optional string field (`undefined` and `""` falsy). -/
def optTruthy : Option String → Bool
  | none => false
  | some s => s ≠ ""

/-- `o.getD ""`, the `(x as string) || ''` idiom. -/
def optStr (o : Option String) : String := o.getD ""

/-- JS `string.split(/\s+/)` (keeps a leading empty piece when the string
starts with whitespace, as JS does). -/
def jsSplitWsAux : Nat → Chars → Chars → List String
  | _, [], acc => [String.mk acc.reverse]
  | 0, s, acc => [String.mk (acc.reverse ++ s)]
  | fuel + 1, c :: rest, acc =>
    if jsSpace c then
      String.mk acc.reverse :: jsSplitWsAux fuel (rest.dropWhile jsSpace) []
    else jsSplitWsAux fuel rest (c :: acc)

def jsSplitWs (s : String) : List String := jsSplitWsAux (s.data.length + 1) s.data []

/-- JS `parts.join(sep)`. -/
def joinSep (sep : String) (l : List String) : String := String.intercalate sep l

/-! ### Data model (`src/lib/types.ts`) -/

/-- `Author` from `types.ts`; the optional `isGroupAuthor` flag becomes a
`Bool` defaulting to `false` (JS truthiness of `undefined`). -/
structure Author where
  lastName : String
  initials : String
  isGroupAuthor : Bool := false
deriving DecidableEq, Repr

/-- The closed citation-type set of `ParsedCitation.type`. -/
inductive CType where
  | journal | book | chapter | web | report | conference | dissertation | unknown
deriving DecidableEq, Repr

/-- `ParsedCitation` from `types.ts` (`type` is spelled `ctype` since `type`
is reserved in Lean). -/
structure ParsedCitation where
  raw : String
  authors : List Author
  year : String
  title : String
  source : String
  volume : Option String := none
  issue : Option String := none
  pages : Option String := none
  doi : Option String := none
  url : Option String := none
  publisher : Option String := none
  editors : Option (List Author) := none
  edition : Option String := none
  ctype : CType
  fullDate : Option String := none
  yearSuffix : Option String := none
  reportNumber : Option String := none
  bracketType : Option String := none
  conferenceName : Option String := none
  institution : Option String := none
  databaseName : Option String := none
  isGroupAuthor : Bool := false
deriving DecidableEq, Repr

inductive Severity where
  | error | warning | info
deriving DecidableEq, Repr

/-- `ValidationError` from `types.ts`; an absent `suggested` key is `none`. -/
structure ValidationError where
  rule : String
  field : String
  message : String
  severity : Severity
  original : String
  suggested : Option String := none
  autoFixable : Bool
deriving DecidableEq, Repr

structure AutoFix where
  rule : String
  field : String
  original : String
  fixed : String
  description : String
deriving DecidableEq, Repr

structure ManualFix where
  rule : String
  field : String
  message : String
  hint : String
deriving DecidableEq, Repr

/-- `CrossRefWork` from `types.ts` (the fields the merge policy reads). -/
structure CrossRefWork where
  doi : String
  title : String
  authors : List Author
  year : String
  source : String
  volume : Option String := none
  issue : Option String := none
  pages : Option String := none
  crType : String
  publisher : Option String := none
  editors : Option (List Author) := none
  edition : Option String := none
deriving DecidableEq, Repr

/-! ### Regexes of `parser.ts` -/

/-- Shorthand: a single literal character. -/
def rch (c : Char) : Re := .lit [c]

def rstr (s : String) : Re := .lit s.data

def rstrCI (s : String) : Re := .litCI s.data

def rcat (l : List Re) : Re := l.foldr Re.cat .eps

def altList : List Re → Re
  | [] => .eps
  | [r] => r
  | r :: rest => .alt r (altList rest)

/-- `(?:[–-])`, the page-range dash class `[\d–-]` without the digits. -/
def isPageDash (c : Char) : Bool := c = '–' || c = '-'

def isPageC (c : Char) : Bool := isDigitC c || isPageDash c

/-- `\((n\.d\.|in press|\d{4}[a-z]?(?:,\s*(?:[A-Z][a-z]+(?:\s+\d{1,2}(?:[–-]\d{1,2})?)?))?)\)`
— the year/date token pattern of `parseCitation`. -/
def yearRe : Re :=
  rcat [rch '(',
    .group 1 (altList [rstr "n.d.", rstr "in press",
      rcat [.repP 4 4 isDigitC, .opt false (.pred isLowerAZ),
        .opt false (rcat [rch ',', .starP false jsSpace,
          .pred isUpperAZ, .plusP false isLowerAZ,
          .opt false (rcat [.plusP false jsSpace, .repP 1 2 isDigitC,
            .opt false (rcat [.pred isPageDash, .repP 1 2 isDigitC])])])]]),
    rch ')']

/-- The last-name character class of the author regex: ASCII letters, the
Latin-1/Latin-Extended ranges, apostrophe, hyphen. -/
def nameChar (c : Char) : Bool :=
  isAsciiLetter c ||
  (Char.ofNat 0xC0 ≤ c && c ≤ Char.ofNat 0xD6) ||
  (Char.ofNat 0xD8 ≤ c && c ≤ Char.ofNat 0xF6) ||
  (Char.ofNat 0xF8 ≤ c && c ≤ Char.ofNat 0x24F) ||
  c = Char.ofNat 39 || c = '-'

/-- The lowercase name-particle alternatives of the author regex, in source
order. -/
def particleAlt : Re :=
  altList [rstr "van", rstr "de", rstr "von", rstr "la", rstr "del",
    rstr "di", rstr "el", rstr "al", rstr "bin", rstr "ibn"]

/-- One `[A-Z]\.\s*` unit of the initials pattern. -/
def initialUnit : Re := rcat [.pred isUpperAZ, rch '.', .starP false jsSpace]

/-- `(nameChars prefixes),\s*((?:[A-Z]\.\s*)+)` — the per-author pattern. -/
def authorRe : Re :=
  rcat [
    .group 1 (rcat [.plusP false nameChar,
      .opt false (rcat [.plusP false jsSpace, particleAlt,
        .plusP false jsSpace, .plusP false nameChar])]),
    rch ',', .starP false jsSpace,
    .group 2 (.cat initialUnit (.starC initialUnit))]

/-- `/,?\s*(?:et al\.|\.\.\.)\s*$/` — the trailing et-al. marker. -/
def etAlRe : Re :=
  rcat [.opt false (rch ','), .starP false jsSpace,
    .alt (rstr "et al.") (rstr "..."), .starP false jsSpace, .endAnchor]

/-- `/https?:\/\/(?:dx\.)?doi\.org\/(G+)/i` where `G` is the class of word
characters, period, slash and hyphen. -/
def doiUrlRe : Re :=
  rcat [rstrCI "http", .opt false (.pred (fun c => lowerAscii c = 's')),
    rstrCI "://", .opt false (rstrCI "dx."), rstrCI "doi.org/",
    .group 1 (.plusP false (fun c => isWordC c || c = '.' || c = '/' || c = '-'))]

/-- `/doi:\s*(10\.\S+)/i` -/
def doiColonRe : Re :=
  rcat [rstrCI "doi:", .starP false jsSpace,
    .group 1 (.cat (rstr "10.") (.plusP false (fun c => !jsSpace c)))]

/-- `/(https?:\/\/[^\s]+)/i` -/
def urlRe : Re :=
  .group 1 (rcat [rstrCI "http", .opt false (.pred (fun c => lowerAscii c = 's')),
    rstrCI "://", .plusP false (fun c => !jsSpace c)])

/-- `/\((\d+)(?:st|nd|rd|th)\s+ed\.\)/i` -/
def editionRe : Re :=
  rcat [rch '(', .group 1 (.plusP false isDigitC),
    altList [rstrCI "st", rstrCI "nd", rstrCI "rd", rstrCI "th"],
    .plusP false jsSpace, rstrCI "ed.", rch ')']

/-- `/\[(.+?)\]/` -/
def bracketRe : Re :=
  rcat [rch '[', .group 1 (.plusP true dotC), rch ']']

/-- `/paper presentation|poster session|symposium|conference session/` -/
def confKeywordRe : Re :=
  altList [rstr "paper presentation", rstr "poster session",
    rstr "symposium", rstr "conference session"]

/-- `/doctoral dissertation|master'?s thesis/` -/
def dissKeywordRe : Re :=
  .alt (rstr "doctoral dissertation")
    (rcat [rstr "master", .opt false (rch (Char.ofNat 39)), rstr "s thesis"])

/-- `/,\s*(.+)$/` — institution inside the bracket descriptor. -/
def instRe : Re :=
  rcat [rch ',', .starP false jsSpace, .group 1 (.plusP false dotC), .endAnchor]

/-- `/\(Report No\.\s*([^)]+)\)/i` -/
def reportNoRe : Re :=
  rcat [rch '(', rstrCI "Report No.", .starP false jsSpace,
    .group 1 (.plusP false (fun c => c ≠ ')')), rch ')']

/-- `/^\.\s*/` — the leading-period strip in `parseRemainingElements`. -/
def leadingPeriodRe : Re := .cat (rch '.') (.starP false jsSpace)

/-- `/\.\s*$/` — trailing period (+ whitespace) at the end of a string. -/
def trailingPeriodWsRe : Re :=
  rcat [rch '.', .starP false jsSpace, .endAnchor]

/-- `/^\.\s*/` anchored strip used on source segments. -/
def stripLeading (re : Re) (s : Chars) : Chars :=
  match reMatchA re s with
  | some (rest, _) => rest
  | none => s

/-- `/\.$/` -/
def trailingPeriodRe : Re := .cat (rch '.') .endAnchor

/-- JS `string.split(re)` for a capture-free regex whose matches are
non-empty (fuelled by the input length). -/
def splitReAux (re : Re) : Nat → Chars → List Chars
  | 0, s => [s]
  | fuel + 1, s =>
    match reSearch re s with
    | some (idx, m, _, rest) =>
      if m.isEmpty then [s] else s.take idx :: splitReAux re fuel rest
    | none => [s]

def splitRe (re : Re) (s : Chars) : List Chars := splitReAux re (s.length + 1) s

/-- `/\s*&\s*/` — the author-separator split pattern. -/
def ampSplitRe : Re :=
  rcat [.starP false jsSpace, rch '&', .starP false jsSpace]

/-- The JS `while ((match = re.exec(part)) !== null)` loop for a `/g` regex:
all successive leftmost matches, each continuing after the previous one. -/
def execLoop (re : Re) : Nat → Chars → List Caps
  | 0, _ => []
  | fuel + 1, s =>
    match reSearch re s with
    | some (_, m, caps, rest) =>
      if m.isEmpty then [] else caps :: execLoop re fuel rest
    | none => []

/-! ### `parser.ts` -/

/-- The Unicode quotation-mark/apostrophe glyphs normalized by
`parseAuthors` (`‘ ’ ‚ ‛ ` ´`). -/
def isCurlyApos (c : Char) : Bool :=
  c = Char.ofNat 0x2018 || c = Char.ofNat 0x2019 || c = Char.ofNat 0x201A ||
  c = Char.ofNat 0x201B || c = Char.ofNat 0x60 || c = Char.ofNat 0xB4

/-- `normalizeInitials`: keep the capital letters and render them as
`"X. Y."`. -/
def normalizeInitials (initials : String) : String :=
  let letters := initials.data.filter isUpperAZ
  joinSep " " (letters.map (fun c => String.mk [c, '.']))

/-- `parseAuthors` from `parser.ts`. -/
def parseAuthors (authorBlock : String) : List Author :=
  let block := jsTrimC authorBlock.data
  let block := block.map (fun c => if isCurlyApos c then Char.ofNat 39 else c)
  let block :=
    if includesSub block "et al.".data || includesSub block "...".data then
      reReplaceFirst etAlRe [] block
    else block
  let parts := splitRe ampSplitRe block
  let authors := parts.flatMap (fun part =>
    (execLoop authorRe (part.length + 1) part).filterMap (fun caps =>
      match capGet caps 1, capGet caps 2 with
      | some m1, some m2 =>
        some { lastName := String.mk (jsTrimC m1),
               initials := normalizeInitials (String.mk (jsTrimC m2)) }
      | _, _ => none))
  if authors.isEmpty && !block.isEmpty then
    let groupName := jsTrimC (reReplaceFirst trailingPeriodWsRe [] block)
    if groupName.isEmpty then []
    else [{ lastName := String.mk groupName, initials := "", isGroupAuthor := true }]
  else authors

/-- `splitByPeriods`: split on `". "` outside parentheses; the accumulator is
kept reversed. -/
def splitByPeriodsAux : Nat → Chars → Chars → Int → List String
  | _, [], cur, _ =>
    let t := jsTrimC cur.reverse
    if t.isEmpty then [] else [String.mk t]
  | 0, s, cur, _ =>
    let t := jsTrimC (cur.reverse ++ s)
    if t.isEmpty then [] else [String.mk t]
  | fuel + 1, c :: rest, cur, depth =>
    if c = '(' then splitByPeriodsAux fuel rest (c :: cur) (depth + 1)
    else if c = ')' then splitByPeriodsAux fuel rest (c :: cur) (depth - 1)
    else if c = '.' && depth = 0 && rest.head? = some ' ' then
      String.mk (jsTrimC cur.reverse) :: splitByPeriodsAux fuel (rest.drop 1) [] depth
    else splitByPeriodsAux fuel rest (c :: cur) depth

def splitByPeriods (text : String) : List String :=
  splitByPeriodsAux (text.data.length + 1) text.data [] 0

/-- An ordered source-shape pattern: regex plus field extractor. -/
structure SourcePat where
  regex : Re
  extract : Caps → ParsedCitation → ParsedCitation

/-- `m.trim()` of a capture. -/
def capTrim (caps : Caps) (i : Nat) : String :=
  String.mk (jsTrimC ((capGet caps i).getD []))

def capString (caps : Caps) (i : Nat) : String := String.mk ((capGet caps i).getD [])

/-- `m.trim().replace(/\.$/, '').split(',')[0].trim()` — the publisher
clean-up used by the chapter patterns. -/
def publisherOfCap (caps : Caps) (i : Nat) : String :=
  let t := jsTrimC ((capGet caps i).getD [])
  let t := reReplaceFirst trailingPeriodRe [] t
  let t := t.takeWhile (· ≠ ',')
  String.mk (jsTrimC t)

/-- `(.+?)` — a lazy one-or-more dot group. -/
def lazyDots (i : Nat) : Re := .group i (.plusP true dotC)

/-- `,?\s+` -/
def commaWs : Re := .cat (.opt false (rch ',')) (.plusP false jsSpace)

/-- `,?\s*` -/
def commaWsOpt : Re := .cat (.opt false (rch ',')) (.starP false jsSpace)

/-- `Vol\.?\s*` (case-insensitive). -/
def volTokRe : Re := rcat [rstrCI "Vol", .opt false (rch '.'), .starP false jsSpace]

/-- `No\.?\s*` (case-insensitive). -/
def noTokRe : Re := rcat [rstrCI "No", .opt false (rch '.'), .starP false jsSpace]

/-- `pp\.?\s*` (case-insensitive). -/
def ppTokRe : Re := rcat [rstrCI "pp", .opt false (rch '.'), .starP false jsSpace]

/-- Pattern 1: `"In Editor (Ed.), BookTitle (pp. X-Y). Publisher"`. -/
def editedChapterPat : SourcePat :=
  { regex := rcat [rstrCI "In", .plusP false jsSpace, lazyDots 1,
      .starP false jsSpace, rch '(',
      .alt (rcat [rstrCI "Ed", .opt false (rstrCI "s"), rch '.']) (rstrCI "Trans."),
      rch ')', commaWsOpt, lazyDots 2, .starP false jsSpace,
      rch '(', rstrCI "pp.", .starP false jsSpace, .group 3 (.plusP false isPageC),
      rstr ").", .starP false jsSpace, .group 4 (.plusP false dotC), .endAnchor],
    extract := fun m c =>
      { c with source := "In " ++ capString m 1 ++ " (Ed.), " ++ capTrim m 2,
               pages := some (capTrim m 3),
               publisher := some (publisherOfCap m 4),
               ctype := .chapter } }

/-- Pattern 2: `"In SourceName (pp. X-Y). Publisher"`. -/
def simpleChapterPat : SourcePat :=
  { regex := rcat [rstrCI "In", .plusP false jsSpace, lazyDots 1,
      .starP false jsSpace, rch '(', rstrCI "pp.", .starP false jsSpace,
      .group 2 (.plusP false isPageC), rstr ").", .starP false jsSpace,
      .group 3 (.plusP false dotC), .endAnchor],
    extract := fun m c =>
      { c with source := "In " ++ capTrim m 1,
               pages := some (capTrim m 2),
               publisher := some (publisherOfCap m 3),
               ctype := .chapter } }

/-- Pattern 3: `"In SourceName (pp. X-Y)"` without publisher. -/
def bareChapterPat : SourcePat :=
  { regex := rcat [rstrCI "In", .plusP false jsSpace, lazyDots 1,
      .starP false jsSpace, rch '(', rstrCI "pp.", .starP false jsSpace,
      .group 2 (.plusP false isPageC), rch ')'],
    extract := fun m c =>
      { c with source := "In " ++ capTrim m 1,
               pages := some (capTrim m 2),
               ctype := .chapter } }

/-- Pattern 4: `Vol. X, No. Y, pp. Z` (legacy/incorrect form). -/
def volNoPpPat : SourcePat :=
  { regex := rcat [lazyDots 1, commaWs, volTokRe, .group 2 (.plusP false isDigitC),
      commaWsOpt, noTokRe, .group 3 (.plusP false isDigitC),
      commaWsOpt, ppTokRe, .opt false (.group 4 (.plusP false isPageC))],
    extract := fun m c =>
      { c with source := capTrim m 1,
               volume := some ("Vol. " ++ capString m 2),
               issue := some ("No. " ++ capString m 3),
               pages := (capGet m 4).map (fun p => "pp. " ++ String.mk p),
               ctype := .journal } }

/-- Pattern 5: `Vol. X(Y), pp. Z` (issue in parentheses, with prefixes). -/
def volParenPat : SourcePat :=
  { regex := rcat [lazyDots 1, commaWs, volTokRe, .group 2 (.plusP false isDigitC),
      rch '(', .group 3 (.plusP false isDigitC), rch ')', commaWsOpt,
      .opt false ppTokRe, .opt false (.group 4 (.plusP false isPageC))],
    extract := fun m c =>
      { c with source := capTrim m 1,
               volume := some ("Vol. " ++ capString m 2),
               issue := some (capString m 3),
               pages := (capGet m 4).map (fun p => "pp. " ++ String.mk p),
               ctype := .journal } }

/-- Pattern 6: `Vol. X, pp. Y` (no issue, with prefixes). -/
def volPpPat : SourcePat :=
  { regex := rcat [lazyDots 1, commaWs, volTokRe, .group 2 (.plusP false isDigitC),
      commaWsOpt, ppTokRe, .opt false (.group 3 (.plusP false isPageC))],
    extract := fun m c =>
      { c with source := capTrim m 1,
               volume := some ("Vol. " ++ capString m 2),
               pages := (capGet m 3).map (fun p => "pp. " ++ String.mk p),
               ctype := .journal } }

/-- Pattern 7: `volume(issue), pages` (correct journal form). -/
def journalIssuePat : SourcePat :=
  { regex := rcat [lazyDots 1, commaWs, .group 2 (.plusP false isDigitC),
      rch '(', .group 3 (.plusP false isDigitC), rch ')', commaWsOpt,
      .opt false (.group 4 (.plusP false isPageC))],
    extract := fun m c =>
      { c with source := capTrim m 1,
               volume := some (capString m 2),
               issue := some (capString m 3),
               pages := (capGet m 4).map String.mk,
               ctype := .journal } }

/-- Pattern 8: `volume, pages` (no issue, correct journal form). -/
def journalNoIssuePat : SourcePat :=
  { regex := rcat [lazyDots 1, commaWs, .group 2 (.plusP false isDigitC),
      commaWsOpt, .opt false (.group 3 (.plusP false isPageC))],
    extract := fun m c =>
      { c with source := capTrim m 1,
               volume := some (capString m 2),
               pages := (capGet m 3).map String.mk,
               ctype := .journal } }

/-- `SOURCE_PATTERNS` from `parser.ts`, in source order (first match wins). -/
def SOURCE_PATTERNS : List SourcePat :=
  [editedChapterPat, simpleChapterPat, bareChapterPat, volNoPpPat,
   volParenPat, volPpPat, journalIssuePat, journalNoIssuePat]

/-- First-match-wins over the ordered pattern list (all patterns are
`^`-anchored, so JS `match` is an anchored match). -/
def tryPatterns : List SourcePat → Chars → ParsedCitation → Option ParsedCitation
  | [], _, _ => none
  | p :: rest, s, c =>
    match reMatchA p.regex s with
    | some (_, caps) => some (p.extract caps c)
    | none => tryPatterns rest s c

/-- `^(.+?)\s*\(\d+(?:st|nd|rd|th)\s+ed\.\)\.\s*(.+?)\.?\s*$` (i) -/
def edFullRe : Re :=
  rcat [lazyDots 1, .starP false jsSpace, rch '(', .plusP false isDigitC,
    altList [rstrCI "st", rstrCI "nd", rstrCI "rd", rstrCI "th"],
    .plusP false jsSpace, rstrCI "ed.", rstr ").", .starP false jsSpace,
    lazyDots 2, .opt false (rch '.'), .starP false jsSpace, .endAnchor]

/-- `^(.+?)\.?\s*$` -/
def pubTailRe : Re :=
  rcat [lazyDots 1, .opt false (rch '.'), .starP false jsSpace, .endAnchor]

/-- `^(.+?)\.\s*(.+?)\.?\s*$` -/
def bookSplitRe : Re :=
  rcat [lazyDots 1, rch '.', .starP false jsSpace, lazyDots 2,
    .opt false (rch '.'), .starP false jsSpace, .endAnchor]

/-- `/Press|Publisher|Books/` (case sensitive). -/
def bookKeywordRe : Re := altList [rstr "Press", rstr "Publisher", rstr "Books"]

/-- `m.trim().replace(/\.$/, '')`. -/
def trimDropDot (s : Chars) : String :=
  String.mk (reReplaceFirst trailingPeriodRe [] (jsTrimC s))

/-- `s.replace(/^\.\s*/, '').replace(/\.\s*$/, '').trim()` — the
conference/database name clean-up. -/
def cleanEdgePeriods (s : Chars) : Chars :=
  jsTrimC (reReplaceFirst trailingPeriodWsRe [] (stripLeading leadingPeriodRe s))

/-- Steps 4–5 of `parseRemainingElements`: split into segments, take the
title, dispatch the source segment.  The returned flag records whether one of
the early-`return` branches of the source was taken (conference,
dissertation, report, a source pattern, or the book branch); the final web
fallback of `parseRemainingElements` is skipped in exactly those cases. -/
def dispatchSegments (remaining : Chars) (c : ParsedCitation) : ParsedCitation × Bool :=
  let segments := splitByPeriods (String.mk remaining)
  let c :=
    match segments.head? with
    | some seg0 => { c with title := jsTrim seg0 }
    | none => c
  if segments.length > 1 then
    let sourceSegment := jsTrim (joinSep ". " (segments.drop 1))
    let ss := sourceSegment.data
    if c.ctype = .conference then
      let confName := cleanEdgePeriods ss
      (if confName.isEmpty then c else { c with conferenceName := some (String.mk confName) }, true)
    else if c.ctype = .dissertation then
      let dbName := cleanEdgePeriods ss
      (if dbName.isEmpty then c else { c with databaseName := some (String.mk dbName) }, true)
    else if c.ctype = .report then
      let cleanSource := jsTrimC (reReplaceFirst trailingPeriodWsRe [] ss)
      (if cleanSource.isEmpty then c
       else { c with publisher := some (String.mk cleanSource),
                     source := String.mk cleanSource }, true)
    else
      match tryPatterns SOURCE_PATTERNS ss c with
      | some c' => (c', true)
      | none =>
        -- book detection
        let editionMatch := reSearch editionRe ss
        let c :=
          match editionMatch with
          | some (_, _, caps, _) => { c with edition := some (capString caps 1) }
          | none => c
        let hasEdition := editionMatch.isSome || optTruthy c.edition
        let hasBookKeyword := reTest bookKeywordRe ss
        if hasEdition || hasBookKeyword then
          let (bookSource, c) :=
            if editionMatch.isSome then
              match reMatchA edFullRe ss with
              | some (_, caps) =>
                (capTrim caps 1, { c with publisher := some (trimDropDot ((capGet caps 2).getD [])) })
              | none => (sourceSegment, c)
            else if optTruthy c.edition then
              match reMatchA pubTailRe ss with
              | some (_, caps) =>
                (c.title, { c with publisher := some (trimDropDot ((capGet caps 1).getD [])) })
              | none => (sourceSegment, c)
            else
              match reMatchA bookSplitRe ss with
              | some (_, caps) =>
                (capTrim caps 1, { c with publisher := some (trimDropDot ((capGet caps 2).getD [])) })
              | none => (sourceSegment, c)
          ({ c with source := bookSource, ctype := .book }, true)
        else
          -- default: treat as source, then pick journal/web
          let c := { c with source := jsTrim sourceSegment }
          (if optTruthy c.volume || optTruthy c.issue then { c with ctype := .journal }
           else if optTruthy c.url && !optTruthy c.doi then { c with ctype := .web }
           else c, false)
  else (c, false)

/-- `parseRemainingElements` from `parser.ts` (as a pure record transform). -/
def parseRemainingElements (afterYear : String) (c0 : ParsedCitation) : ParsedCitation :=
  let remaining := jsTrimC (stripLeading leadingPeriodRe afterYear.data)
  -- 1. DOI (URL form first, then doi: prefix)
  let (remaining, c) :=
    match reSearch doiUrlRe remaining with
    | some (_, m, caps, _) =>
      (jsTrimC (replaceFirstSub remaining m []),
       { c0 with doi := some (capString caps 1), url := some (String.mk m) })
    | none =>
      match reSearch doiColonRe remaining with
      | some (_, m, caps, _) =>
        (jsTrimC (replaceFirstSub remaining m []),
         { c0 with doi := some (String.mk (reReplaceFirst trailingPeriodRe [] ((capGet caps 1).getD []))) })
      | none => (remaining, c0)
  -- URL if no DOI
  let (remaining, c) :=
    if c.doi.isNone then
      match reSearch urlRe remaining with
      | some (_, m, caps, _) =>
        (jsTrimC (replaceFirstSub remaining m []),
         { c with url := some (capString caps 1) })
      | none => (remaining, c)
    else (remaining, c)
  -- Edition "(Nth ed.)" pre-extraction
  let (remaining, c) :=
    match reSearch editionRe remaining with
    | some (_, m, caps, _) =>
      (jsTrimC (replaceFirstSub remaining m []),
       { c with edition := some (capString caps 1) })
    | none => (remaining, c)
  -- 2. [BracketType]
  let (remaining, c) :=
    match reSearch bracketRe remaining with
    | some (_, m, caps, _) =>
      let inner := (capGet caps 1).getD []
      let c := { c with bracketType := some (String.mk inner) }
      let bracketLower := inner.map lowerAscii
      let c := if reTest confKeywordRe bracketLower then { c with ctype := .conference } else c
      let c :=
        if reTest dissKeywordRe bracketLower then
          let c := { c with ctype := .dissertation }
          match reSearch instRe inner with
          | some (_, _, icaps, _) => { c with institution := some (capTrim icaps 1) }
          | none => c
        else c
      (jsTrimC (replaceFirstSub remaining m []), c)
    | none => (remaining, c)
  -- 3. (Report No. X)
  let (remaining, c) :=
    match reSearch reportNoRe remaining with
    | some (_, m, caps, _) =>
      let c := { c with reportNumber := some (capTrim caps 1) }
      let c := if c.ctype = CType.unknown then { c with ctype := CType.report } else c
      (jsTrimC (replaceFirstSub remaining m []), c)
    | none => (remaining, c)
  -- 4./5. Segments and dispatch (with the trailing web fallback only on the
  -- fall-through path, mirroring the early `return`s of the source)
  let (c, early) := dispatchSegments remaining c
  if !early && c.ctype = CType.unknown && optTruthy c.url && !optTruthy c.doi then
    { c with ctype := CType.web }
  else c

/-- `^(\d{4})` on the year token. -/
def leadYear4 (s : Chars) : Option Chars :=
  match s with
  | a :: b :: c :: d :: _ =>
    if isDigitC a && isDigitC b && isDigitC c && isDigitC d then some [a, b, c, d] else none
  | _ => none

/-- `parseCitation` from `parser.ts`. -/
def parseCitation (text : String) : ParsedCitation :=
  let raw := jsTrim text
  let base : ParsedCitation :=
    { raw := raw, authors := [], year := "", title := "", source := "", ctype := .unknown }
  match reSearch yearRe raw.data with
  | none => { base with title := raw }
  | some (_, m0, caps, _) =>
    let fullDateChars := (capGet caps 1).getD []
    let fullDateStr := String.mk fullDateChars
    let c :=
      if fullDateStr = "n.d." || fullDateStr = "in press" then
        { base with year := fullDateStr }
      else
        let c := match leadYear4 fullDateChars with
          | some y => { base with year := String.mk y }
          | none => base
        let c := match leadYear4 fullDateChars, fullDateChars.get? 4 with
          | some _, some ch => if isLowerAZ ch then { c with yearSuffix := some (String.mk [ch]) } else c
          | _, _ => c
        if fullDateChars.contains ',' then { c with fullDate := some fullDateStr } else c
    let yearIndex := (indexOfSub raw.data m0).getD 0
    let beforeYear := jsTrim (String.mk (raw.data.take yearIndex))
    let afterYear := jsTrim (String.mk (raw.data.drop (yearIndex + m0.length)))
    let c := { c with authors := parseAuthors beforeYear }
    let c := if c.authors.any (·.isGroupAuthor) then { c with isGroupAuthor := true } else c
    parseRemainingElements afterYear c

/-- `parseCitations`: split on blank lines, trim, drop empties. -/
def parseCitations (text : String) : List ParsedCitation :=
  let blankRe : Re := rcat [rch '\n', .starP false jsSpace, rch '\n']
  ((splitRe blankRe text.data).map (fun t => jsTrim (String.mk t))).filter (fun t => t ≠ "")
    |>.map parseCitation

/-! ### `rules.ts` -/

/-- `word.charAt(0).toUpperCase() + word.slice(1).toLowerCase()` (ASCII). -/
def capFirstLowerRest (w : String) : String :=
  match w.data with
  | [] => ""
  | c :: rest => String.mk (upperAscii c :: rest.map lowerAscii)

/-- `/^[A-Z]{2,5}$/` — acronym shape. -/
def isAcronym (w : String) : Bool :=
  2 ≤ w.data.length && w.data.length ≤ 5 && w.data.all isUpperAZ

/-- JS `title.split(/([:.]\s)/)` — pieces with the captured two-character
delimiters interleaved. -/
def sentenceSplitAux : Nat → Chars → Chars → List String
  | _, [], acc => [String.mk acc.reverse]
  | 0, s, acc => [String.mk (acc.reverse ++ s)]
  | fuel + 1, c :: rest, acc =>
    if c = ':' || c = '.' then
      match rest with
      | w :: rest2 =>
        if jsSpace w then
          String.mk acc.reverse :: String.mk [c, w] :: sentenceSplitAux fuel rest2 []
        else sentenceSplitAux fuel rest (c :: acc)
      | [] => sentenceSplitAux fuel rest (c :: acc)
    else sentenceSplitAux fuel rest (c :: acc)

/-- Is a piece one of the captured delimiters (`/^[:.]\s$/`)? -/
def isDelimPiece (p : String) : Bool :=
  match p.data with
  | [c, w] => (c = ':' || c = '.') && jsSpace w
  | _ => false

/-- `toSentenceCase` from `rules.ts`. -/
def toSentenceCase (title : String) : String :=
  let parts := sentenceSplitAux (title.data.length + 1) title.data []
  joinSep "" (parts.map (fun part =>
    if isDelimPiece part then part
    else
      let words := jsSplitWs part
      joinSep " " (words.enum.map (fun (wi, word) =>
        if wi = 0 then capFirstLowerRest word
        else if isAcronym word then word
        else jsToLower word))))

/-- `isLikelyTitleCase` from `rules.ts` (the JS `0.6` threshold is exact for
the small word counts involved). -/
def isLikelyTitleCase (title : String) : Bool :=
  let words := (jsSplitWs title).filter (fun w => w.length > 3)
  let capitalized := words.filter (fun w =>
    match w.data with
    | c :: _ => isUpperAZ c
    | [] => false)
  3 ≤ capitalized.length && 10 * capitalized.length ≥ 6 * words.length

/-- `MINOR_WORDS` from `rules.ts`. -/
def MINOR_WORDS : List String :=
  ["a", "an", "the",
   "and", "but", "or", "nor", "for", "yet", "so",
   "of", "in", "on", "at", "to", "by", "up", "as", "if", "is",
   "it", "its", "vs", "via", "per", "with", "from"]

/-- `toTitleCase` from `rules.ts`. -/
def toTitleCase (text : String) : String :=
  let words := jsSplitWs text
  joinSep " " (words.enum.map (fun (wi, word) =>
    if wi = 0 || wi = words.length - 1 then capFirstLowerRest word
    else if isAcronym word then word
    else if MINOR_WORDS.contains (jsToLower word) then jsToLower word
    else capFirstLowerRest word))

/-- `isJournalNameNotTitleCase` from `rules.ts`. -/
def isJournalNameNotTitleCase (source : String) : Bool :=
  let words := (jsSplitWs source).filter (fun w => w.length > 0)
  if words.length < 2 then false
  else
    let counted := words.enum.filter (fun (i, w) =>
      !(0 < i && i < words.length - 1 && MINOR_WORDS.contains (jsToLower w)))
    let lower := counted.filter (fun (_, w) =>
      match w.data with
      | c :: _ => isLowerAZ c
      | [] => false)
    2 ≤ lower.length

/-- `JSON.stringify(author)` as produced for the author objects of this code
base (parser-made individual authors carry `lastName`/`initials`; group
authors additionally `isGroupAuthor: true`). -/
def authorJson (a : Author) : String :=
  "\x7b\"lastName\":\"" ++ a.lastName ++ "\",\"initials\":\"" ++ a.initials ++ "\"" ++
    (if a.isGroupAuthor then ",\"isGroupAuthor\":true" else "") ++ "\x7d"

/-- `/^([A-Z]\.\s)*[A-Z]\.$/` — the well-formed-initials pattern. -/
def initialsPatternRe : Re :=
  rcat [.starC (rcat [.pred isUpperAZ, rch '.', .pred jsSpace]),
    .pred isUpperAZ, rch '.', .endAnchor]

def initialsWellFormed (s : String) : Bool := (reMatchA initialsPatternRe s.data).isSome

/-- Each `'.'` expanded to `'. '` (`replace(/\./g, '. ')`). -/
def expandDots (s : Chars) : Chars :=
  s.flatMap (fun c => if c = '.' then ['.', ' '] else [c])

/-- `replace(/\s+/g, ' ')` — collapse whitespace runs to single spaces. -/
def collapseWsAux : Chars → Bool → Chars
  | [], _ => []
  | c :: rest, prevWs =>
    if jsSpace c then
      if prevWs then collapseWsAux rest true
      else ' ' :: collapseWsAux rest true
    else c :: collapseWsAux rest false

def collapseWs (s : Chars) : Chars := collapseWsAux s false

/-- JS `string.split(sep)` for a single-character separator. -/
def splitOnCharAux : Nat → Char → Chars → Chars → List Chars
  | _, _, [], acc => [acc.reverse]
  | 0, _, s, acc => [acc.reverse ++ s]
  | fuel + 1, sep, c :: rest, acc =>
    if c = sep then acc.reverse :: splitOnCharAux fuel sep rest []
    else splitOnCharAux fuel sep rest (c :: acc)

def splitOnChar (sep : Char) (s : Chars) : List Chars :=
  splitOnCharAux (s.length + 1) sep s []

/-- The re-punctuation producing the suggested initials in
`checkAuthorFormat`. -/
def suggestInitials (initials : String) : String :=
  let t := jsTrimC (collapseWs (expandDots initials.data))
  let pieces := splitOnChar ' ' t
  joinSep " " (pieces.map (fun p =>
    let p := String.mk p
    if jsEndsWith p "." then p else p ++ "."))

/-- `checkAuthorFormat` from `rules.ts`. -/
def checkAuthorFormat (citation : ParsedCitation) : List ValidationError :=
  citation.authors.enum.flatMap (fun (index, author) =>
    if author.isGroupAuthor then
      if author.lastName = "" || jsTrim author.lastName = "" then
        [{ rule := "authorFormat", field := "authors",
           message := "Author " ++ Nat.repr (index + 1) ++ " missing organization name",
           severity := .error, original := authorJson author, autoFixable := false }]
      else []
    else
      (if author.initials = "" then
        [{ rule := "authorFormat", field := "authors",
           message := "Author " ++ Nat.repr (index + 1) ++ " (" ++ author.lastName ++ ") missing initials",
           severity := .error, original := author.lastName, autoFixable := false }]
      else if !initialsWellFormed author.initials then
        [{ rule := "authorFormat", field := "authors",
           message := "Author " ++ Nat.repr (index + 1) ++
             " initials should be formatted as \"F. M.\" (with spaces and periods)",
           severity := .error, original := author.initials,
           suggested := some (suggestInitials author.initials), autoFixable := true }]
      else []) ++
      (if author.lastName = "" || jsTrim author.lastName = "" then
        [{ rule := "authorFormat", field := "authors",
           message := "Author " ++ Nat.repr (index + 1) ++ " missing last name",
           severity := .error, original := authorJson author, autoFixable := false }]
      else []))

/-- `^\d{4}$|^n\.d\.$|^in press$` -/
def yearValid (y : String) : Bool :=
  (y.data.length = 4 && y.data.all isDigitC) || y = "n.d." || y = "in press"

/-- `checkYearFormat` from `rules.ts`. -/
def checkYearFormat (citation : ParsedCitation) : List ValidationError :=
  if citation.year = "" then
    [{ rule := "yearFormat", field := "year", message := "Year is missing",
       severity := .error, original := "", autoFixable := false }]
  else if !yearValid citation.year then
    let suggested :=
      match reSearch (.repP 4 4 isDigitC) citation.year.data with
      | some (_, m, _, _) => String.mk m
      | none => ""
    [{ rule := "yearFormat", field := "year",
       message := "Year should be 4-digit format (YYYY), \"n.d.\", or \"in press\"",
       severity := .error, original := citation.year,
       suggested := some suggested, autoFixable := suggested ≠ "" }]
  else []

/-- `checkTitleCase` from `rules.ts`. -/
def checkTitleCase (citation : ParsedCitation) : List ValidationError :=
  if citation.title = "" then
    [{ rule := "titleCase", field := "title", message := "Title is missing",
       severity := .error, original := "", autoFixable := false }]
  else if isLikelyTitleCase citation.title then
    [{ rule := "titleCase", field := "title",
       message := "Title should use sentence case (only first word and proper nouns capitalized)",
       severity := .warning, original := citation.title,
       suggested := some (toSentenceCase citation.title), autoFixable := true }]
  else []

/-- `checkDOIPresence` from `rules.ts`. -/
def checkDOIPresence (citation : ParsedCitation) : List ValidationError :=
  if citation.ctype = .journal && !optTruthy citation.doi then
    [{ rule := "doiPresence", field := "doi",
       message := "DOI should be included when available for journal articles",
       severity := .warning, original := "", autoFixable := false }]
  else []

/-- `/^10\.\d+\//` -/
def bareDOIRe : Re := rcat [rstr "10.", .plusP false isDigitC, rch '/']

/-- `/^doi:\s*/` -/
def doiColonStripRe : Re := .cat (rstr "doi:") (.starP false jsSpace)

/-- `checkDOIFormat` from `rules.ts`. -/
def checkDOIFormat (citation : ParsedCitation) : List ValidationError :=
  if !optTruthy citation.doi then []
  else
    let doi := jsTrim (optStr citation.doi)
    (if jsEndsWith doi "." then
      [{ rule := "doiFormat", field := "doi",
         message := "DOI should not end with a period",
         severity := .error, original := doi,
         suggested := some (String.mk (doi.data.dropLast)), autoFixable := true }]
    else []) ++
    (if jsStartsWith doi "doi:" then
      let doiNumber := String.mk (stripLeading doiColonStripRe doi.data)
      [{ rule := "doiFormat", field := "doi",
         message := "DOI should use format https://doi.org/...",
         severity := .error, original := doi,
         suggested := some ("https://doi.org/" ++ doiNumber), autoFixable := true }]
    else if !jsStartsWith doi "https://doi.org/" then
      if (reMatchA bareDOIRe doi.data).isSome then
        [{ rule := "doiFormat", field := "doi",
           message := "DOI should include full URL https://doi.org/...",
           severity := .error, original := doi,
           suggested := some ("https://doi.org/" ++ doi), autoFixable := true }]
      else
        [{ rule := "doiFormat", field := "doi",
           message := "DOI should start with https://doi.org/",
           severity := .error, original := doi, autoFixable := false }]
    else [])

/-- `/vol\.?\s*/i` -/
def volStripRe : Re := rcat [rstrCI "vol", .opt false (rch '.'), .starP false jsSpace]

/-- `/no\.?\s*/i` -/
def noStripRe : Re := rcat [rstrCI "no", .opt false (rch '.'), .starP false jsSpace]

/-- `/pp\.?\s*/i` -/
def ppStripRe : Re := rcat [rstrCI "pp", .opt false (rch '.'), .starP false jsSpace]

def isAllDigits (s : String) : Bool := s ≠ "" && s.data.all isDigitC

/-- `checkVolumeIssueFormat` from `rules.ts`. -/
def checkVolumeIssueFormat (citation : ParsedCitation) : List ValidationError :=
  (match citation.volume with
   | none => []
   | some volume =>
     if volume = "" then [] else
     (if jsIncludes (jsToLower volume) "vol" then
       [{ rule := "volumeFormat", field := "volume",
          message := "Volume should not include \"Vol.\" prefix",
          severity := .error, original := volume,
          suggested := some (String.mk (reReplaceFirst volStripRe [] volume.data)),
          autoFixable := true }]
     else []) ++
     (let cleanVolume := String.mk (reReplaceFirst volStripRe [] volume.data)
      if !isAllDigits cleanVolume then
        [{ rule := "volumeFormat", field := "volume",
           message := "Volume should be a number",
           severity := .warning, original := volume, autoFixable := false }]
      else [])) ++
  (match citation.issue with
   | none => []
   | some issue =>
     if issue = "" then [] else
     if jsIncludes (jsToLower issue) "no" then
       [{ rule := "issueFormat", field := "issue",
          message := "Issue should not include \"No.\" prefix",
          severity := .error, original := issue,
          suggested := some (String.mk (reReplaceFirst noStripRe [] issue.data)),
          autoFixable := true }]
     else [])

/-- `checkPageFormat` from `rules.ts`. -/
def checkPageFormat (citation : ParsedCitation) : List ValidationError :=
  if !optTruthy citation.pages then []
  else
    let pages := jsTrim (optStr citation.pages)
    (if citation.ctype = .journal && jsStartsWith (jsToLower pages) "pp" then
      [{ rule := "pageFormat", field := "pages",
         message := "Page numbers should not include \"pp.\" prefix for journal articles",
         severity := .error, original := pages,
         suggested := some (String.mk (reReplaceFirst ppStripRe [] pages.data)),
         autoFixable := true }]
    else []) ++
    (let cleanPages := String.mk (reReplaceFirst ppStripRe [] pages.data)
     if jsIncludes cleanPages "-" && !jsIncludes cleanPages "–" then
       [{ rule := "pageFormat", field := "pages",
          message := "Page range should use en dash (–) not hyphen (-)",
          severity := .warning, original := pages,
          suggested := some (String.mk (cleanPages.data.map (fun c => if c = '-' then '–' else c))),
          autoFixable := true }]
     else [])

/-- `/\(\d{4}/` — the year-opening token used by `checkAmpersand`. -/
def openYearRe : Re := .cat (rch '(') (.repP 4 4 isDigitC)

/-- `checkAmpersand` from `rules.ts`. -/
def checkAmpersand (citation : ParsedCitation) : List ValidationError :=
  if citation.authors.length < 2 then []
  else
    (if 2 ≤ citation.authors.length && citation.authors.length ≤ 20 then
      let authorBlock :=
        match reSearch openYearRe citation.raw.data with
        | some (_, m, _, _) =>
          String.mk (citation.raw.data.take ((indexOfSub citation.raw.data m).getD 0))
        | none => ""
      if authorBlock ≠ "" && jsIncludes authorBlock " and " then
        [{ rule := "ampersand", field := "authors",
           message := "Use ampersand (&) not \"and\" before last author in reference list",
           severity := .error, original := jsTrim authorBlock, autoFixable := true }]
      else []
    else []) ++
    (if 20 < citation.authors.length then
      [{ rule := "ampersand", field := "authors",
         message := "For 21+ authors, use first 19 authors, ellipsis (...), then last author",
         severity := .info, original := Nat.repr citation.authors.length ++ " authors listed",
         autoFixable := true }]
    else [])

/-- `checkJournalNameCase` from `rules.ts`. -/
def checkJournalNameCase (citation : ParsedCitation) : List ValidationError :=
  if citation.ctype ≠ .journal || citation.source = "" then []
  else if isJournalNameNotTitleCase citation.source then
    [{ rule := "journalNameCase", field := "source",
       message := "Journal name should use Title Case (capitalize major words)",
       severity := .warning, original := citation.source,
       suggested := some (toTitleCase citation.source), autoFixable := true }]
  else []

/-- `checkConferenceNameCase` from `rules.ts` (applies to chapter-typed
citations: proceedings). -/
def checkConferenceNameCase (citation : ParsedCitation) : List ValidationError :=
  if citation.ctype ≠ .chapter || citation.source = "" then []
  else
    let conferenceName :=
      if jsStartsWith citation.source "In " then String.mk (citation.source.data.drop 3)
      else citation.source
    if isJournalNameNotTitleCase conferenceName then
      [{ rule := "conferenceNameCase", field := "source",
         message := "Conference/proceedings name should use Title Case (proper noun)",
         severity := .warning, original := citation.source,
         suggested := some ("In " ++ toTitleCase conferenceName), autoFixable := true }]
    else []

/-- `checkChapterEditors` from `rules.ts`. -/
def checkChapterEditors (citation : ParsedCitation) : List ValidationError :=
  if citation.ctype ≠ .chapter then []
  else if citation.editors.isNone || (citation.editors.getD []).isEmpty then
    [{ rule := "chapterEditors", field := "editors",
       message := "Book chapter should include editor(s): In F. M. Editor (Ed.), Book title",
       severity := .warning, original := "", autoFixable := false }]
  else []

/-- `/https?:\/\/[^\s]+$/` -/
def urlEndRe : Re :=
  rcat [rstr "http", .opt false (rch 's'), rstr "://",
    .plusP false (fun c => !jsSpace c), .endAnchor]

/-- `/doi\.org\/[^\s]+$/` -/
def doiOrgEndRe : Re :=
  rcat [rstr "doi.org/", .plusP false (fun c => !jsSpace c), .endAnchor]

/-- `checkTerminalPeriod` from `rules.ts`. -/
def checkTerminalPeriod (citation : ParsedCitation) : List ValidationError :=
  let raw := jsTrim citation.raw
  if raw = "" then []
  else if reTest urlEndRe raw.data || reTest doiOrgEndRe raw.data then []
  else if !jsEndsWith raw "." then
    [{ rule := "terminalPeriod", field := "raw",
       message := "Citation should end with a period",
       severity := .warning,
       original := String.mk (raw.data.drop (raw.data.length - min 20 raw.data.length)),
       suggested := some (raw ++ "."), autoFixable := true }]
  else []

/-- `checkFullDateRequired` from `rules.ts`. -/
def checkFullDateRequired (citation : ParsedCitation) : List ValidationError :=
  if citation.ctype ≠ .conference then []
  else if !optTruthy citation.fullDate then
    [{ rule := "fullDateRequired", field := "year",
       message := "Conference presentations should include the full date (year, month day–day)",
       severity := .warning, original := citation.year, autoFixable := false }]
  else []

/-- `checkPublisherRequired` from `rules.ts`. -/
def checkPublisherRequired (citation : ParsedCitation) : List ValidationError :=
  if !(citation.ctype = .book || citation.ctype = .chapter || citation.ctype = .report) then []
  else if !optTruthy citation.publisher && citation.source = "" then
    [{ rule := "publisherRequired", field := "publisher",
       message :=
         (if citation.ctype = .chapter then "Book chapter"
          else if citation.ctype = .report then "Report" else "Book") ++
         " should include a publisher",
       severity := .error, original := "", autoFixable := false }]
  else []

/-- `checkEditionFormat` from `rules.ts`. -/
def checkEditionFormat (citation : ParsedCitation) : List ValidationError :=
  if !optTruthy citation.edition then []
  else if !isAllDigits (optStr citation.edition) then
    [{ rule := "editionFormat", field := "edition",
       message := "Edition should be a number (e.g., \"2\" for 2nd edition)",
       severity := .error, original := optStr citation.edition, autoFixable := false }]
  else []

/-- `^([A-Z][a-zA-Z\s]+,\s*[A-Z]{2}:\s*)` -/
def locationRe : Re :=
  .group 1 (rcat [.pred isUpperAZ,
    .plusP false (fun c => isAsciiLetter c || jsSpace c),
    rch ',', .starP false jsSpace, .repP 2 2 isUpperAZ, rch ':', .starP false jsSpace])

/-- `checkPublisherLocation` from `rules.ts`. -/
def checkPublisherLocation (citation : ParsedCitation) : List ValidationError :=
  let pub :=
    if optTruthy citation.publisher then optStr citation.publisher
    else if citation.source ≠ "" then citation.source
    else ""
  match reMatchA locationRe pub.data with
  | some (_, caps) =>
    let m1 := (capGet caps 1).getD []
    [{ rule := "publisherLocation", field := "publisher",
       message := "APA 7th edition no longer includes publisher location. Remove \"City, ST:\" prefix.",
       severity := .warning, original := pub,
       suggested := some (jsTrim (String.mk (replaceFirstSub pub.data m1 []))),
       autoFixable := true }]
  | none => []

/-- `checkInPrefix` from `rules.ts` (named `checkInPrefixRule` here). -/
def checkInPrefixRule (citation : ParsedCitation) : List ValidationError :=
  if citation.ctype ≠ .chapter || citation.source = "" then []
  else if !jsStartsWith citation.source "In " then
    [{ rule := "inPrefix", field := "source",
       message := "Book chapter source should begin with \"In \" (e.g., In F. Editor (Ed.), Book title)",
       severity := .error, original := citation.source,
       suggested := some ("In " ++ citation.source), autoFixable := true }]
  else []

/-- `checkBracketType` from `rules.ts`. -/
def checkBracketType (citation : ParsedCitation) : List ValidationError :=
  if !(citation.ctype = .conference || citation.ctype = .dissertation) then []
  else if !optTruthy citation.bracketType then
    let expected :=
      if citation.ctype = .conference then "[Paper presentation]"
      else "[Doctoral dissertation, Institution Name]"
    [{ rule := "bracketType", field := "bracketType",
       message :=
         (if citation.ctype = .conference then "Conference presentation" else "Dissertation") ++
         " should include type descriptor in brackets (e.g., " ++ expected ++ ")",
       severity := .error, original := "", autoFixable := false }]
  else []

/-- `checkConferenceInfo` from `rules.ts`. -/
def checkConferenceInfo (citation : ParsedCitation) : List ValidationError :=
  if citation.ctype ≠ .conference then []
  else if !optTruthy citation.conferenceName then
    [{ rule := "conferenceInfo", field := "conferenceName",
       message := "Conference presentation should include conference name and location",
       severity := .error, original := "", autoFixable := false }]
  else []

/-- `checkDissertationInfo` from `rules.ts`. -/
def checkDissertationInfo (citation : ParsedCitation) : List ValidationError :=
  if citation.ctype ≠ .dissertation then []
  else if !optTruthy citation.institution then
    [{ rule := "dissertationInfo", field := "institution",
       message := "Dissertation should include institution name in brackets (e.g., [Doctoral dissertation, University Name])",
       severity := .error, original := "", autoFixable := false }]
  else []

/-- `checkReportNumber` from `rules.ts`. -/
def checkReportNumber (citation : ParsedCitation) : List ValidationError :=
  if citation.ctype ≠ .report then []
  else if !optTruthy citation.reportNumber then
    [{ rule := "reportNumber", field := "reportNumber",
       message := "Report should include a report number if available (e.g., Report No. 2024-01)",
       severity := .info, original := "", autoFixable := false }]
  else []

/-! ### Routing (`rules.ts`) -/

/-- A routed rule: `appliesTo = none` models `'all'`. -/
structure RoutedRule where
  rule : ParsedCitation → List ValidationError
  appliesTo : Option (List CType)

/-- `ROUTED_RULES` from `rules.ts`, in source order. -/
def ROUTED_RULES : List RoutedRule := [
  -- Universal rules
  { rule := checkAuthorFormat, appliesTo := none },
  { rule := checkYearFormat, appliesTo := none },
  { rule := checkTitleCase, appliesTo := none },
  { rule := checkDOIFormat, appliesTo := none },
  { rule := checkAmpersand, appliesTo := none },
  { rule := checkTerminalPeriod, appliesTo := none },
  -- Journal-specific
  { rule := checkDOIPresence, appliesTo := some [.journal] },
  { rule := checkVolumeIssueFormat, appliesTo := some [.journal] },
  { rule := checkJournalNameCase, appliesTo := some [.journal] },
  -- Journal + Chapter
  { rule := checkPageFormat, appliesTo := some [.journal, .chapter] },
  -- Chapter-specific
  { rule := checkConferenceNameCase, appliesTo := some [.chapter] },
  { rule := checkChapterEditors, appliesTo := some [.chapter] },
  { rule := checkInPrefixRule, appliesTo := some [.chapter] },
  -- Book/Chapter/Report
  { rule := checkPublisherRequired, appliesTo := some [.book, .chapter, .report] },
  { rule := checkEditionFormat, appliesTo := some [.book, .chapter] },
  { rule := checkPublisherLocation, appliesTo := some [.book, .chapter] },
  -- Conference-specific
  { rule := checkFullDateRequired, appliesTo := some [.conference] },
  { rule := checkConferenceInfo, appliesTo := some [.conference] },
  -- Conference + Dissertation
  { rule := checkBracketType, appliesTo := some [.conference, .dissertation] },
  -- Dissertation-specific
  { rule := checkDissertationInfo, appliesTo := some [.dissertation] },
  -- Report-specific
  { rule := checkReportNumber, appliesTo := some [.report] }
  ]

/-- `getRulesForType` from `rules.ts`. -/
def getRulesForType (t : CType) : List (ParsedCitation → List ValidationError) :=
  (ROUTED_RULES.filter (fun r => r.appliesTo.isNone || (r.appliesTo.getD []).contains t)).map (·.rule)

/-- `ALL_RULES` from `rules.ts`. -/
def ALL_RULES : List (ParsedCitation → List ValidationError) := ROUTED_RULES.map (·.rule)

/-- The rule-evaluation loop of `validateCitation` /
`validateCitationWithoutCrossRef` in `index.ts`: all rules, accumulated. -/
def runAllRules (c : ParsedCitation) : List ValidationError :=
  ALL_RULES.flatMap (fun r => r c)

/-! ### `auto-fix.ts` -/

/-- JS array indexing with an `Int` index; out of range gives `undefined`. -/
def jsGetStr (l : List String) (i : Int) : Option String :=
  if 0 ≤ i then l.get? i.toNat else none

/-- `toOrdinal` from `auto-fix.ts` (JS `%` truncates, `Int.tmod`). -/
def toOrdinal (n : String) : String :=
  match jsParseInt n with
  | none => n
  | some num =>
    let suffixes := ["th", "st", "nd", "rd"]
    let mod100 := Int.tmod num 100
    let suffix :=
      ((jsGetStr suffixes (Int.tmod (mod100 - 20) 10)).getD
        ((jsGetStr suffixes mod100).getD "th"))
    Int.repr num ++ suffix

/-- The target fields of `FIELD_MAP`. -/
inductive FixField where
  | year | title | doi | volume | issue | pages | source | publisher | raw
deriving DecidableEq, Repr

/-- `FIELD_MAP` from `auto-fix.ts`: rule identifier → citation field. -/
def FIELD_MAP : String → Option FixField
  | "yearFormat" => some .year
  | "titleCase" => some .title
  | "doiFormat" => some .doi
  | "volumeFormat" => some .volume
  | "issueFormat" => some .issue
  | "pageFormat" => some .pages
  | "journalNameCase" => some .source
  | "conferenceNameCase" => some .source
  | "publisherLocation" => some .publisher
  | "inPrefix" => some .source
  | "terminalPeriod" => some .raw
  | _ => none

def fieldKeyName : FixField → String
  | .year => "year"
  | .title => "title"
  | .doi => "doi"
  | .volume => "volume"
  | .issue => "issue"
  | .pages => "pages"
  | .source => "source"
  | .publisher => "publisher"
  | .raw => "raw"

/-- `(fixedCitation[field] as string) || ''` -/
def getField (c : ParsedCitation) (f : FixField) : String :=
  match f with
  | .year => c.year
  | .title => c.title
  | .doi => optStr c.doi
  | .volume => optStr c.volume
  | .issue => optStr c.issue
  | .pages => optStr c.pages
  | .source => c.source
  | .publisher => optStr c.publisher
  | .raw => c.raw

/-- `fixedCitation[field] = error.suggested` -/
def setField (c : ParsedCitation) (f : FixField) (v : String) : ParsedCitation :=
  match f with
  | .year => { c with year := v }
  | .title => { c with title := v }
  | .doi => { c with doi := some v }
  | .volume => { c with volume := some v }
  | .issue => { c with issue := some v }
  | .pages => { c with pages := some v }
  | .source => { c with source := v }
  | .publisher => { c with publisher := some v }
  | .raw => { c with raw := v }

/-- `FIX_DESCRIPTIONS[rule]?.(error) ?? error.message` from `auto-fix.ts`. -/
def fixDescription (e : ValidationError) : String :=
  match e.rule with
  | "yearFormat" => "Corrected year format to \"" ++ optStr e.suggested ++ "\""
  | "titleCase" => "Converted title to sentence case (verify proper nouns)"
  | "doiFormat" => "Corrected DOI format to \"" ++ optStr e.suggested ++ "\""
  | "volumeFormat" => "Removed \"Vol.\" prefix from volume"
  | "issueFormat" => "Removed \"No.\" prefix from issue"
  | "pageFormat" =>
    if jsIncludes e.message "pp." then "Removed \"pp.\" prefix"
    else "Changed hyphen to en dash"
  | "journalNameCase" => "Converted journal name to Title Case"
  | "conferenceNameCase" => "Converted conference/proceedings name to Title Case"
  | "publisherLocation" => "Removed publisher location (APA 7th change)"
  | "inPrefix" => "Added \"In \" prefix to chapter source"
  | "terminalPeriod" => "Added terminal period"
  | _ => e.message

/-- `MANUAL_FIX_HINTS` plus `getManualFixHint` from `auto-fix.ts`. -/
def getManualFixHint (e : ValidationError) : String :=
  match e.rule with
  | "authorFormat" =>
    if jsIncludes e.message "missing initials" || jsIncludes e.message "organization name" then
      "Add first and middle initials in format \"F. M.\" after the last name, or provide the full organization name for group authors."
    else if jsIncludes e.message "missing last name" then
      "Provide the author\x27s last name."
    else "Format author as: LastName, F. M."
  | "yearFormat" => "Provide a 4-digit year (YYYY), \"n.d.\" for no date, or \"in press\" in parentheses."
  | "doiPresence" => "Search for the DOI on CrossRef or the publisher\x27s website. If unavailable, this is acceptable."
  | "doiFormat" => "DOI should be in format: https://doi.org/10.xxxx/xxxxx"
  | "titleCase" => "Verify proper nouns are still capitalized correctly in the converted title."
  | "volumeFormat" => "Volume should be just the number (e.g., \"23\" not \"Vol. 23\")."
  | "issueFormat" => "Issue should be just the number in parentheses (e.g., \"(4)\" not \"No. 4\")."
  | "pageFormat" => "Use en dash (–) for page ranges and remove \"pp.\" prefix for journal articles."
  | "journalNameCase" => "Journal names should use Title Case (e.g., \"Journal of Educational Psychology\" not \"journal of educational psychology\")."
  | "conferenceNameCase" => "Conference/proceedings names are proper nouns and should use Title Case (e.g., \"International Conference on Information Systems\")."
  | "chapterEditors" => "Look up the book on the publisher\x27s website or Google Books to find the editor(s). Format: In F. M. Editor (Ed.), for one editor, or In F. Editor & G. Editor (Eds.), for multiple."
  | "ampersand" => "Use ampersand (&) before the last author in reference lists."
  | "typeMismatch" => "CrossRef metadata indicates this citation is a different type than detected. Verify the citation format matches the actual publication type."
  | "publisherRequired" => "Add the publisher name after the title/edition."
  | "fullDateRequired" => "Conference presentations require the full date including month and day(s) (e.g., 2024, March 15)."
  | "editionFormat" => "Edition should be a number formatted as ordinal (e.g., 2nd ed.)."
  | "bracketType" => "Add a type descriptor in brackets after the title (e.g., [Paper presentation], [Doctoral dissertation, University Name])."
  | "conferenceInfo" => "Add the conference name and location after the bracket descriptor (e.g., Annual Meeting of APA, Washington, DC, United States)."
  | "dissertationInfo" => "Include the institution name in brackets (e.g., [Doctoral dissertation, Massachusetts Institute of Technology])."
  | "reportNumber" => "Include the report number if available (e.g., Report No. 2024-01) in parentheses after the title."
  | "inPrefix" => "Chapter source should start with \"In \" followed by editors and book title."
  | _ => e.message

/-- `/Author (\d+)/` -/
def authorIdxRe : Re := .cat (rstr "Author ") (.group 1 (.plusP false isDigitC))

/-- The fix loop of `applyAutoFixes` (lines 57–123): the corrected record and
the accumulated fix lists, before reconstruction. -/
def applyFixesState (citation : ParsedCitation) (errors : List ValidationError) :
    ParsedCitation × List AutoFix × List ManualFix :=
  errors.foldl (fun (acc : ParsedCitation × List AutoFix × List ManualFix) error =>
    let (fixedCitation, autoFixes, manualFixes) := acc
    if !error.autoFixable then
      (fixedCitation, autoFixes,
       manualFixes ++ [{ rule := error.rule, field := error.field,
                         message := error.message, hint := getManualFixHint error }])
    else if error.rule = "authorFormat" then
      if optTruthy error.suggested && error.field = "authors" then
        let matched : Int :=
          match reSearch authorIdxRe error.message.data with
          | some (_, _, caps, _) => ((natOfDigits ((capGet caps 1).getD [])) : Int)
          | none => 0
        let authorIndex : Int := matched - 1
        if 0 ≤ authorIndex && authorIndex < (fixedCitation.authors.length : Int) then
          let i := authorIndex.toNat
          let oldInitials := ((fixedCitation.authors.get? i).map (·.initials)).getD ""
          let newAuthors := fixedCitation.authors.enum.map (fun (j, a) =>
            if j = i then { a with initials := optStr error.suggested } else a)
          ({ fixedCitation with authors := newAuthors },
           autoFixes ++ [{ rule := "authorFormat", field := "authors",
                           original := oldInitials, fixed := optStr error.suggested,
                           description := "Corrected initials format to \"" ++ optStr error.suggested ++ "\"" }],
           manualFixes)
        else acc
      else acc
    else if error.rule = "ampersand" then
      (fixedCitation,
       autoFixes ++ [{ rule := "ampersand", field := "authors", original := "and",
                       fixed := "&",
                       description := "Changed \"and\" to \"&\" before last author" }],
       manualFixes)
    else
      match FIELD_MAP error.rule with
      | some field =>
        if optTruthy error.suggested then
          let original := getField fixedCitation field
          (setField fixedCitation field (optStr error.suggested),
           autoFixes ++ [{ rule := error.rule, field := fieldKeyName field,
                           original := original, fixed := optStr error.suggested,
                           description := fixDescription error }],
           manualFixes)
        else acc
      | none => acc)
    (citation, [], [])

/-- The rendering of one author: group authors as bare names, individual
authors as `"Last, Initials"`. -/
def renderAuthor (author : Author) : String :=
  if author.isGroupAuthor then author.lastName
  else author.lastName ++ ", " ++ author.initials

/-- The per-index author entry of `reconstructCitation` (lines 143–155):
`n` is the total author count; index 19 becomes the ellipsis and indices
between 19 and the last are dropped when `n > 20`. -/
def authorEntryRender (n index : Nat) (author : Author) : Option String :=
  if n > 20 && index = 19 then some "..."
  else if n > 20 && 19 < index && index < n - 1 then none
  else some (renderAuthor author)

/-- The author-string list of `reconstructCitation` (lines 143–155):
per-index rendering with the `>20` ellipsis scheme, then `.filter(Boolean)`,
which drops both the `null` middle entries and empty strings. -/
def authorStringsOf (authors : List Author) : List String :=
  (authors.enum.filterMap (fun p => authorEntryRender authors.length p.1 p.2)).filter
    (fun s => s ≠ "")

/-- The author-string join of `reconstructCitation` (lines 157–166). On an
empty list the code's else branch reads index `-1`, so JavaScript renders
the `undefined` last author into the string. -/
def joinAuthorStrings : List String → String
  | [a] => a
  | [a, b] => a ++ ", & " ++ b
  | l => joinSep ", " l.dropLast ++ ", & " ++ l.getLastD "undefined"

/-- Editor rendering of the chapter branch (lines 261–274). -/
def editorsString (editors : List Author) : String :=
  let editorStrings := editors.map (fun e => e.initials ++ " " ++ e.lastName)
  match editorStrings with
  | [] => ""
  | [a] => a
  | [a, b] => a ++ " & " ++ b
  | l => joinSep ", " l.dropLast ++ ", & " ++ l.getLastD ""

/-- `reconstructCitation` from `auto-fix.ts`. -/
def reconstructCitation (citation : ParsedCitation) : String :=
  let parts : List String := []
  -- Authors
  let parts :=
    if citation.authors.length > 0 then
      parts ++ [joinAuthorStrings (authorStringsOf citation.authors)]
    else parts
  -- Year
  let parts :=
    if citation.year ≠ "" then
      if optTruthy citation.fullDate then parts ++ ["(" ++ optStr citation.fullDate ++ ")."]
      else if optTruthy citation.yearSuffix then
        parts ++ ["(" ++ citation.year ++ optStr citation.yearSuffix ++ ")."]
      else parts ++ ["(" ++ citation.year ++ ")."]
    else parts
  -- Title
  let parts := if citation.title ≠ "" then parts ++ [citation.title ++ "."] else parts
  -- report/conference/dissertation without source
  let parts :=
    if citation.source = "" &&
       (citation.ctype = .report || citation.ctype = .conference || citation.ctype = .dissertation) then
      if citation.ctype = .report then
        let reportPart :=
          if optTruthy citation.reportNumber then
            "*" ++ citation.title ++ "* (Report No. " ++ optStr citation.reportNumber ++ ")"
          else "*" ++ citation.title ++ "*"
        let reportPart := reportPart ++ "."
        let reportPart :=
          if optTruthy citation.publisher then reportPart ++ " " ++ optStr citation.publisher ++ "."
          else reportPart
        (parts.eraseP (fun p => p = citation.title ++ ".")) ++ [reportPart]
      else if citation.ctype = .conference then
        let confPart := citation.title
        let confPart :=
          if optTruthy citation.bracketType then confPart ++ " [" ++ optStr citation.bracketType ++ "]"
          else confPart
        let confPart := confPart ++ "."
        let confPart :=
          if optTruthy citation.conferenceName then confPart ++ " " ++ optStr citation.conferenceName ++ "."
          else confPart
        (parts.eraseP (fun p => p = citation.title ++ ".")) ++ [confPart]
      else
        let dissPart := "*" ++ citation.title ++ "*"
        let dissPart :=
          if optTruthy citation.bracketType then dissPart ++ " [" ++ optStr citation.bracketType ++ "]"
          else dissPart
        let dissPart := dissPart ++ "."
        let dissPart :=
          if optTruthy citation.databaseName then dissPart ++ " " ++ optStr citation.databaseName ++ "."
          else dissPart
        (parts.eraseP (fun p => p = citation.title ++ ".")) ++ [dissPart]
    else parts
  -- Source
  let parts :=
    if citation.source ≠ "" then
      if citation.ctype = .journal then
        let journalPart := "*" ++ citation.source ++ "*"
        let journalPart :=
          if optTruthy citation.volume then
            if optTruthy citation.issue then
              journalPart ++ ", *" ++ optStr citation.volume ++ "*(" ++ optStr citation.issue ++ ")"
            else journalPart ++ ", *" ++ optStr citation.volume ++ "*"
          else journalPart
        let journalPart :=
          if optTruthy citation.pages then journalPart ++ ", " ++ optStr citation.pages
          else journalPart
        parts ++ [journalPart ++ "."]
      else if citation.ctype = .chapter then
        let bookTitle :=
          if jsStartsWith citation.source "In " then String.mk (citation.source.data.drop 3)
          else citation.source
        let chapterPart := "In "
        let chapterPart :=
          if citation.editors.isSome && !(citation.editors.getD []).isEmpty then
            let eds := citation.editors.getD []
            let edLabel := if eds.length = 1 then "Ed." else "Eds."
            chapterPart ++ editorsString eds ++ " (" ++ edLabel ++ "), "
          else chapterPart ++ "[Editor, F. M.] (Ed.), "
        let chapterPart := chapterPart ++ "*" ++ bookTitle ++ "*"
        let chapterPart :=
          if optTruthy citation.edition || optTruthy citation.pages then
            let parenParts : List String :=
              (if optTruthy citation.edition then [toOrdinal (optStr citation.edition) ++ " ed."] else []) ++
              (if optTruthy citation.pages then ["pp. " ++ optStr citation.pages] else [])
            chapterPart ++ " (" ++ joinSep ", " parenParts ++ ")"
          else chapterPart
        let chapterPart := chapterPart ++ "."
        let chapterPart :=
          if optTruthy citation.publisher then chapterPart ++ " " ++ optStr citation.publisher ++ "."
          else chapterPart
        parts ++ [chapterPart]
      else if citation.ctype = .book then
        let bookPart := "*" ++ citation.source ++ "*"
        let bookPart :=
          if optTruthy citation.edition then
            bookPart ++ " (" ++ toOrdinal (optStr citation.edition) ++ " ed.)"
          else bookPart
        let bookPart := bookPart ++ "."
        let bookPart :=
          if optTruthy citation.publisher then bookPart ++ " " ++ optStr citation.publisher ++ "."
          else bookPart
        parts ++ [bookPart]
      else if citation.ctype = .report then
        let reportPart :=
          if optTruthy citation.reportNumber then
            "*" ++ citation.title ++ "* (Report No. " ++ optStr citation.reportNumber ++ ")"
          else "*" ++ citation.title ++ "*"
        let reportPart := reportPart ++ "."
        let reportPart :=
          if optTruthy citation.publisher || citation.source ≠ "" then
            reportPart ++ " " ++
              (if optTruthy citation.publisher then optStr citation.publisher else citation.source) ++ "."
          else reportPart
        (parts.eraseP (fun p => p = citation.title ++ ".")) ++ [reportPart]
      else if citation.ctype = .conference then
        let confPart := citation.title
        let confPart :=
          if optTruthy citation.bracketType then confPart ++ " [" ++ optStr citation.bracketType ++ "]"
          else confPart
        let confPart := confPart ++ "."
        let confPart :=
          if optTruthy citation.conferenceName then confPart ++ " " ++ optStr citation.conferenceName ++ "."
          else confPart
        (parts.eraseP (fun p => p = citation.title ++ ".")) ++ [confPart]
      else if citation.ctype = .dissertation then
        let dissPart := "*" ++ citation.title ++ "*"
        let dissPart :=
          if optTruthy citation.bracketType then dissPart ++ " [" ++ optStr citation.bracketType ++ "]"
          else dissPart
        let dissPart := dissPart ++ "."
        let dissPart :=
          if optTruthy citation.databaseName then dissPart ++ " " ++ optStr citation.databaseName ++ "."
          else dissPart
        (parts.eraseP (fun p => p = citation.title ++ ".")) ++ [dissPart]
      else parts ++ [citation.source]
    else parts
  -- DOI / URL
  let parts :=
    if optTruthy citation.doi then parts ++ [optStr citation.doi]
    else if optTruthy citation.url then parts ++ [optStr citation.url]
    else parts
  String.mk (jsTrimC (collapseWs (joinSep " " parts).data))

/-- `applyAutoFixes` from `auto-fix.ts`. -/
def applyAutoFixes (citation : ParsedCitation) (errors : List ValidationError) :
    String × List AutoFix × List ManualFix :=
  let (fixedCitation, autoFixes, manualFixes) := applyFixesState citation errors
  (reconstructCitation fixedCitation, autoFixes, manualFixes)

/-- `Math.round` (round half toward positive infinity).  `Rat.floor` is the
computable floor of `ℚ` (`⌊·⌋` agrees with it definitionally). -/
def jsRound (q : ℚ) : Int := Rat.floor (q + 1 / 2)

lemma jsRound_eq_intFloor (q : ℚ) : jsRound q = ⌊q + 1 / 2⌋ := rfl

def sevPenalty : Severity → ℚ
  | .error => 15
  | .warning => 10
  | .info => 5

def sevAddBack : Severity → ℚ
  | .error => 15 / 2
  | .warning => 5
  | .info => 5 / 2

/-- `calculateScore` from `auto-fix.ts`.  All JS float values reached are
multiples of 1/2 far below 2^53, so exact rational arithmetic is faithful. -/
def calculateScore (errors : List ValidationError) (autoFixes : List AutoFix) : Int :=
  let score : ℚ := errors.foldl (fun s e => s - sevPenalty e.severity) 100
  let score : ℚ := autoFixes.foldl (fun s f =>
    match errors.find? (fun e => e.rule = f.rule && e.field = f.field) with
    | some originalError => s + sevAddBack originalError.severity
    | none => s) score
  max 0 (min 100 (jsRound score))

/-! ### Enrichment merge (`index.ts`) -/

/-- `mapCrossRefType` from `index.ts`. -/
def mapCrossRefType (crossRefType : String) : CType :=
  if crossRefType = "journal-article" then .journal
  else if crossRefType = "book-chapter" then .chapter
  else if crossRefType = "proceedings-article" then .chapter
  else if crossRefType = "book" then .book
  else .unknown

/-- `/^https?:\/\/doi\.org\//` -/
def doiOrgStripRe : Re :=
  rcat [rstr "http", .opt false (rch 's'), rstr "://doi.org/"]

/-- `pages.replace(/^[-–]/, '')` — strip one leading dash. -/
def dropLeadDash (s : String) : String :=
  match s.data with
  | c :: rest => if c = '-' || c = '–' then String.mk rest else s
  | [] => s

/-- `crossRefWork.edition && parseInt(crossRefWork.edition) > 1` (NaN
compares false). -/
def editionGreaterOne (crossRefWork : CrossRefWork) : Bool :=
  optTruthy crossRefWork.edition &&
    (match jsParseInt (optStr crossRefWork.edition) with
     | some n => decide (1 < n)
     | none => false)

/-- Lines 55–74 of `index.ts`: copy the record, add a missing DOI in
resolver form, and supplement incomplete page info from CrossRef. -/
def addDoiAndPages (citation : ParsedCitation) (crossRefWork : CrossRefWork) : ParsedCitation :=
  let corrected := citation
  let corrected :=
    if !optTruthy corrected.doi && crossRefWork.doi ≠ "" then
      { corrected with doi := some ("https://doi.org/" ++
          String.mk (stripLeading doiOrgStripRe crossRefWork.doi.data)) }
    else corrected
  if optTruthy crossRefWork.pages && optTruthy corrected.pages then
    let currentPages := (optStr corrected.pages).data.filter (fun c => !jsSpace c)
    let crossRefPages := (optStr crossRefWork.pages).data.filter (fun c => !jsSpace c)
    if !currentPages.contains '-' && !currentPages.contains '–' && crossRefPages.contains '-' then
      { corrected with pages := crossRefWork.pages }
    else corrected
  else if optTruthy crossRefWork.pages && !optTruthy corrected.pages then
    { corrected with pages := crossRefWork.pages }
  else corrected

/-- The journal-to-chapter reinterpretation block inside
`correctCitationWithCrossRef` (`index.ts`), applied to the retyped record. -/
def journalToChapter (corrected0 : ParsedCitation) (crossRefWork : CrossRefWork) :
    ParsedCitation :=
  let corrected :=
    if optTruthy corrected0.volume && optTruthy corrected0.pages then
      { corrected0 with
          pages := some (optStr corrected0.volume ++ "-" ++ dropLeadDash (optStr corrected0.pages)) }
    else if optTruthy corrected0.volume && !optTruthy corrected0.pages then
      { corrected0 with pages := corrected0.volume }
    else corrected0
  let corrected := { corrected with volume := none, issue := none }
  let corrected :=
    if corrected.source ≠ "" && !jsStartsWith corrected.source "In " then
      { corrected with source := "In " ++ corrected.source }
    else corrected
  let corrected :=
    if optTruthy crossRefWork.publisher then
      { corrected with publisher := crossRefWork.publisher }
    else corrected
  let corrected :=
    if crossRefWork.editors.isSome && !(crossRefWork.editors.getD []).isEmpty then
      { corrected with editors := crossRefWork.editors }
    else corrected
  let corrected :=
    if editionGreaterOne crossRefWork then
      { corrected with edition := crossRefWork.edition }
    else corrected
  corrected

/-- `correctCitationWithCrossRef` from `index.ts`. -/
def correctCitationWithCrossRef (citation : ParsedCitation) (crossRefWork : CrossRefWork) :
    ParsedCitation × Bool :=
  let crossRefType := mapCrossRefType crossRefWork.crType
  let corrected := addDoiAndPages citation crossRefWork
  if crossRefType = citation.ctype || crossRefType = .unknown then
    (corrected, false)
  else
    let corrected := { corrected with ctype := crossRefType }
    let corrected :=
      if citation.ctype = .journal && crossRefType = .chapter then
        journalToChapter corrected crossRefWork
      else corrected
    (corrected, true)

/-- The `typeMismatch` violation appended by `validateCitation` when
enrichment changed the type. -/
def typeMismatchViolation (c : ParsedCitation) : ValidationError :=
  { rule := "typeMismatch", field := "type",
    message := "CrossRef indicates this is a " ++
      (if c.ctype = .chapter then "book chapter/proceedings"
       else
         match c.ctype with
         | .journal => "journal" | .book => "book" | .chapter => "chapter"
         | .web => "web" | .report => "report" | .conference => "conference"
         | .dissertation => "dissertation" | .unknown => "unknown") ++
      ", not a journal article. Citation format has been corrected.",
    severity := .info, original := "journal", autoFixable := false }

/-- Step 3 of `validateCitation`: rule evaluation plus the single
`typeMismatch` info entry when the enrichment changed the type. -/
def errorsAfterValidation (c : ParsedCitation) (typeChanged : Bool) : List ValidationError :=
  runAllRules c ++ (if typeChanged then [typeMismatchViolation c] else [])

/-! ## Structural facts about every emitted violation (used by C2 and C9) -/

/-- Every violation a rule emits satisfies this: its rule name is never
`typeMismatch`, and when it is auto-fixable it either is the `ampersand`
rule (fixed structurally at reconstruction, no suggestion) or carries a
suggestion. -/
def violationOk (v : ValidationError) : Prop :=
  v.rule ≠ "typeMismatch" ∧
  (v.autoFixable = true → v.rule = "ampersand" ∨ v.suggested.isSome = true)

lemma ok_checkAuthorFormat (c : ParsedCitation) (v : ValidationError)
    (hv : v ∈ checkAuthorFormat c) : violationOk v := by
  unfold checkAuthorFormat at hv
  rw [List.mem_flatMap] at hv
  obtain ⟨⟨i, a⟩, -, hv⟩ := hv
  dsimp only at hv
  split_ifs at hv <;>
    simp only [List.mem_append, List.mem_singleton, List.not_mem_nil,
      or_false, false_or, List.append_nil, List.nil_append, or_assoc] at hv <;>
    (first
      | (rcases hv with rfl | rfl | rfl | rfl)
      | (rcases hv with rfl | rfl | rfl)
      | (rcases hv with rfl | rfl)
      | (rcases hv with rfl)) <;>
    (refine ⟨by simp, fun h => ?_⟩
     first
       | exact Or.inl rfl
       | exact Or.inr rfl
       | exact absurd h (by simp))

lemma ok_checkYearFormat (c : ParsedCitation) (v : ValidationError)
    (hv : v ∈ checkYearFormat c) : violationOk v := by
  simp only [checkYearFormat] at hv
  split_ifs at hv <;>
    simp only [List.mem_append, List.mem_singleton, List.not_mem_nil,
      or_false, false_or, List.append_nil, List.nil_append, or_assoc] at hv <;>
    (first
      | (rcases hv with rfl | rfl | rfl | rfl)
      | (rcases hv with rfl | rfl | rfl)
      | (rcases hv with rfl | rfl)
      | (rcases hv with rfl)) <;>
    (refine ⟨by simp, fun h => ?_⟩
     first
       | exact Or.inl rfl
       | exact Or.inr rfl
       | exact absurd h (by simp))

lemma ok_checkTitleCase (c : ParsedCitation) (v : ValidationError)
    (hv : v ∈ checkTitleCase c) : violationOk v := by
  simp only [checkTitleCase] at hv
  split_ifs at hv <;>
    simp only [List.mem_append, List.mem_singleton, List.not_mem_nil,
      or_false, false_or, List.append_nil, List.nil_append, or_assoc] at hv <;>
    (first
      | (rcases hv with rfl | rfl | rfl | rfl)
      | (rcases hv with rfl | rfl | rfl)
      | (rcases hv with rfl | rfl)
      | (rcases hv with rfl)) <;>
    (refine ⟨by simp, fun h => ?_⟩
     first
       | exact Or.inl rfl
       | exact Or.inr rfl
       | exact absurd h (by simp))

lemma ok_checkDOIPresence (c : ParsedCitation) (v : ValidationError)
    (hv : v ∈ checkDOIPresence c) : violationOk v := by
  simp only [checkDOIPresence] at hv
  split_ifs at hv <;>
    simp only [List.mem_append, List.mem_singleton, List.not_mem_nil,
      or_false, false_or, List.append_nil, List.nil_append, or_assoc] at hv <;>
    (first
      | (rcases hv with rfl | rfl | rfl | rfl)
      | (rcases hv with rfl | rfl | rfl)
      | (rcases hv with rfl | rfl)
      | (rcases hv with rfl)) <;>
    (refine ⟨by simp, fun h => ?_⟩
     first
       | exact Or.inl rfl
       | exact Or.inr rfl
       | exact absurd h (by simp))

lemma ok_checkDOIFormat (c : ParsedCitation) (v : ValidationError)
    (hv : v ∈ checkDOIFormat c) : violationOk v := by
  simp only [checkDOIFormat] at hv
  split_ifs at hv <;>
    simp only [List.mem_append, List.mem_singleton, List.not_mem_nil,
      or_false, false_or, List.append_nil, List.nil_append, or_assoc] at hv <;>
    (first
      | (rcases hv with rfl | rfl | rfl | rfl)
      | (rcases hv with rfl | rfl | rfl)
      | (rcases hv with rfl | rfl)
      | (rcases hv with rfl)) <;>
    (refine ⟨by simp, fun h => ?_⟩
     first
       | exact Or.inl rfl
       | exact Or.inr rfl
       | exact absurd h (by simp))

lemma ok_checkVolumeIssueFormat (c : ParsedCitation) (v : ValidationError)
    (hv : v ∈ checkVolumeIssueFormat c) : violationOk v := by
  unfold checkVolumeIssueFormat at hv
  cases hvol : c.volume <;> cases hiss : c.issue <;>
    simp only [hvol, hiss] at hv <;>
    (try split_ifs at hv) <;>
    simp only [List.mem_append, List.mem_singleton, List.not_mem_nil,
      or_false, false_or, List.append_nil, List.nil_append, or_assoc] at hv <;>
    (first
      | (rcases hv with rfl | rfl | rfl | rfl)
      | (rcases hv with rfl | rfl | rfl)
      | (rcases hv with rfl | rfl)
      | (rcases hv with rfl)) <;>
    (refine ⟨by simp, fun h => ?_⟩
     first
       | exact Or.inl rfl
       | exact Or.inr rfl
       | exact absurd h (by simp))

lemma ok_checkPageFormat (c : ParsedCitation) (v : ValidationError)
    (hv : v ∈ checkPageFormat c) : violationOk v := by
  simp only [checkPageFormat] at hv
  split_ifs at hv <;>
    simp only [List.mem_append, List.mem_singleton, List.not_mem_nil,
      or_false, false_or, List.append_nil, List.nil_append, or_assoc] at hv <;>
    (first
      | (rcases hv with rfl | rfl | rfl | rfl)
      | (rcases hv with rfl | rfl | rfl)
      | (rcases hv with rfl | rfl)
      | (rcases hv with rfl)) <;>
    (refine ⟨by simp, fun h => ?_⟩
     first
       | exact Or.inl rfl
       | exact Or.inr rfl
       | exact absurd h (by simp))

lemma ok_checkAmpersand (c : ParsedCitation) (v : ValidationError)
    (hv : v ∈ checkAmpersand c) : violationOk v := by
  simp only [checkAmpersand] at hv
  split_ifs at hv <;>
    simp only [List.mem_append, List.mem_singleton, List.not_mem_nil,
      or_false, false_or, List.append_nil, List.nil_append, or_assoc] at hv <;>
    (first
      | (rcases hv with rfl | rfl | rfl | rfl)
      | (rcases hv with rfl | rfl | rfl)
      | (rcases hv with rfl | rfl)
      | (rcases hv with rfl)) <;>
    (refine ⟨by simp, fun h => ?_⟩
     first
       | exact Or.inl rfl
       | exact Or.inr rfl
       | exact absurd h (by simp))

lemma ok_checkJournalNameCase (c : ParsedCitation) (v : ValidationError)
    (hv : v ∈ checkJournalNameCase c) : violationOk v := by
  simp only [checkJournalNameCase] at hv
  split_ifs at hv <;>
    simp only [List.mem_append, List.mem_singleton, List.not_mem_nil,
      or_false, false_or, List.append_nil, List.nil_append, or_assoc] at hv <;>
    (first
      | (rcases hv with rfl | rfl | rfl | rfl)
      | (rcases hv with rfl | rfl | rfl)
      | (rcases hv with rfl | rfl)
      | (rcases hv with rfl)) <;>
    (refine ⟨by simp, fun h => ?_⟩
     first
       | exact Or.inl rfl
       | exact Or.inr rfl
       | exact absurd h (by simp))

lemma ok_checkConferenceNameCase (c : ParsedCitation) (v : ValidationError)
    (hv : v ∈ checkConferenceNameCase c) : violationOk v := by
  simp only [checkConferenceNameCase] at hv
  split_ifs at hv <;>
    simp only [List.mem_append, List.mem_singleton, List.not_mem_nil,
      or_false, false_or, List.append_nil, List.nil_append, or_assoc] at hv <;>
    (first
      | (rcases hv with rfl | rfl | rfl | rfl)
      | (rcases hv with rfl | rfl | rfl)
      | (rcases hv with rfl | rfl)
      | (rcases hv with rfl)) <;>
    (refine ⟨by simp, fun h => ?_⟩
     first
       | exact Or.inl rfl
       | exact Or.inr rfl
       | exact absurd h (by simp))

lemma ok_checkChapterEditors (c : ParsedCitation) (v : ValidationError)
    (hv : v ∈ checkChapterEditors c) : violationOk v := by
  simp only [checkChapterEditors] at hv
  split_ifs at hv <;>
    simp only [List.mem_append, List.mem_singleton, List.not_mem_nil,
      or_false, false_or, List.append_nil, List.nil_append, or_assoc] at hv <;>
    (first
      | (rcases hv with rfl | rfl | rfl | rfl)
      | (rcases hv with rfl | rfl | rfl)
      | (rcases hv with rfl | rfl)
      | (rcases hv with rfl)) <;>
    (refine ⟨by simp, fun h => ?_⟩
     first
       | exact Or.inl rfl
       | exact Or.inr rfl
       | exact absurd h (by simp))

lemma ok_checkTerminalPeriod (c : ParsedCitation) (v : ValidationError)
    (hv : v ∈ checkTerminalPeriod c) : violationOk v := by
  simp only [checkTerminalPeriod] at hv
  split_ifs at hv <;>
    simp only [List.mem_append, List.mem_singleton, List.not_mem_nil,
      or_false, false_or, List.append_nil, List.nil_append, or_assoc] at hv <;>
    (first
      | (rcases hv with rfl | rfl | rfl | rfl)
      | (rcases hv with rfl | rfl | rfl)
      | (rcases hv with rfl | rfl)
      | (rcases hv with rfl)) <;>
    (refine ⟨by simp, fun h => ?_⟩
     first
       | exact Or.inl rfl
       | exact Or.inr rfl
       | exact absurd h (by simp))

lemma ok_checkFullDateRequired (c : ParsedCitation) (v : ValidationError)
    (hv : v ∈ checkFullDateRequired c) : violationOk v := by
  simp only [checkFullDateRequired] at hv
  split_ifs at hv <;>
    simp only [List.mem_append, List.mem_singleton, List.not_mem_nil,
      or_false, false_or, List.append_nil, List.nil_append, or_assoc] at hv <;>
    (first
      | (rcases hv with rfl | rfl | rfl | rfl)
      | (rcases hv with rfl | rfl | rfl)
      | (rcases hv with rfl | rfl)
      | (rcases hv with rfl)) <;>
    (refine ⟨by simp, fun h => ?_⟩
     first
       | exact Or.inl rfl
       | exact Or.inr rfl
       | exact absurd h (by simp))

lemma ok_checkPublisherRequired (c : ParsedCitation) (v : ValidationError)
    (hv : v ∈ checkPublisherRequired c) : violationOk v := by
  simp only [checkPublisherRequired] at hv
  split_ifs at hv <;>
    simp only [List.mem_append, List.mem_singleton, List.not_mem_nil,
      or_false, false_or, List.append_nil, List.nil_append, or_assoc] at hv <;>
    (first
      | (rcases hv with rfl | rfl | rfl | rfl)
      | (rcases hv with rfl | rfl | rfl)
      | (rcases hv with rfl | rfl)
      | (rcases hv with rfl)) <;>
    (refine ⟨by simp, fun h => ?_⟩
     first
       | exact Or.inl rfl
       | exact Or.inr rfl
       | exact absurd h (by simp))

lemma ok_checkEditionFormat (c : ParsedCitation) (v : ValidationError)
    (hv : v ∈ checkEditionFormat c) : violationOk v := by
  simp only [checkEditionFormat] at hv
  split_ifs at hv <;>
    simp only [List.mem_append, List.mem_singleton, List.not_mem_nil,
      or_false, false_or, List.append_nil, List.nil_append, or_assoc] at hv <;>
    (first
      | (rcases hv with rfl | rfl | rfl | rfl)
      | (rcases hv with rfl | rfl | rfl)
      | (rcases hv with rfl | rfl)
      | (rcases hv with rfl)) <;>
    (refine ⟨by simp, fun h => ?_⟩
     first
       | exact Or.inl rfl
       | exact Or.inr rfl
       | exact absurd h (by simp))

lemma ok_checkPublisherLocation (c : ParsedCitation) (v : ValidationError)
    (hv : v ∈ checkPublisherLocation c) : violationOk v := by
  unfold checkPublisherLocation at hv
  dsimp only at hv
  split at hv <;>
    (try split at hv) <;>
    (try split at hv) <;>
    simp only [List.mem_append, List.mem_singleton, List.not_mem_nil,
      or_false, false_or, List.append_nil, List.nil_append, or_assoc] at hv <;>
    (first
      | (rcases hv with rfl | rfl | rfl | rfl)
      | (rcases hv with rfl | rfl | rfl)
      | (rcases hv with rfl | rfl)
      | (rcases hv with rfl)) <;>
    (refine ⟨by simp, fun h => ?_⟩
     first
       | exact Or.inl rfl
       | exact Or.inr rfl
       | exact absurd h (by simp))

lemma ok_checkInPrefixRule (c : ParsedCitation) (v : ValidationError)
    (hv : v ∈ checkInPrefixRule c) : violationOk v := by
  simp only [checkInPrefixRule] at hv
  split_ifs at hv <;>
    simp only [List.mem_append, List.mem_singleton, List.not_mem_nil,
      or_false, false_or, List.append_nil, List.nil_append, or_assoc] at hv <;>
    (first
      | (rcases hv with rfl | rfl | rfl | rfl)
      | (rcases hv with rfl | rfl | rfl)
      | (rcases hv with rfl | rfl)
      | (rcases hv with rfl)) <;>
    (refine ⟨by simp, fun h => ?_⟩
     first
       | exact Or.inl rfl
       | exact Or.inr rfl
       | exact absurd h (by simp))

lemma ok_checkBracketType (c : ParsedCitation) (v : ValidationError)
    (hv : v ∈ checkBracketType c) : violationOk v := by
  simp only [checkBracketType] at hv
  split_ifs at hv <;>
    simp only [List.mem_append, List.mem_singleton, List.not_mem_nil,
      or_false, false_or, List.append_nil, List.nil_append, or_assoc] at hv <;>
    (first
      | (rcases hv with rfl | rfl | rfl | rfl)
      | (rcases hv with rfl | rfl | rfl)
      | (rcases hv with rfl | rfl)
      | (rcases hv with rfl)) <;>
    (refine ⟨by simp, fun h => ?_⟩
     first
       | exact Or.inl rfl
       | exact Or.inr rfl
       | exact absurd h (by simp))

lemma ok_checkConferenceInfo (c : ParsedCitation) (v : ValidationError)
    (hv : v ∈ checkConferenceInfo c) : violationOk v := by
  simp only [checkConferenceInfo] at hv
  split_ifs at hv <;>
    simp only [List.mem_append, List.mem_singleton, List.not_mem_nil,
      or_false, false_or, List.append_nil, List.nil_append, or_assoc] at hv <;>
    (first
      | (rcases hv with rfl | rfl | rfl | rfl)
      | (rcases hv with rfl | rfl | rfl)
      | (rcases hv with rfl | rfl)
      | (rcases hv with rfl)) <;>
    (refine ⟨by simp, fun h => ?_⟩
     first
       | exact Or.inl rfl
       | exact Or.inr rfl
       | exact absurd h (by simp))

lemma ok_checkDissertationInfo (c : ParsedCitation) (v : ValidationError)
    (hv : v ∈ checkDissertationInfo c) : violationOk v := by
  simp only [checkDissertationInfo] at hv
  split_ifs at hv <;>
    simp only [List.mem_append, List.mem_singleton, List.not_mem_nil,
      or_false, false_or, List.append_nil, List.nil_append, or_assoc] at hv <;>
    (first
      | (rcases hv with rfl | rfl | rfl | rfl)
      | (rcases hv with rfl | rfl | rfl)
      | (rcases hv with rfl | rfl)
      | (rcases hv with rfl)) <;>
    (refine ⟨by simp, fun h => ?_⟩
     first
       | exact Or.inl rfl
       | exact Or.inr rfl
       | exact absurd h (by simp))

lemma ok_checkReportNumber (c : ParsedCitation) (v : ValidationError)
    (hv : v ∈ checkReportNumber c) : violationOk v := by
  simp only [checkReportNumber] at hv
  split_ifs at hv <;>
    simp only [List.mem_append, List.mem_singleton, List.not_mem_nil,
      or_false, false_or, List.append_nil, List.nil_append, or_assoc] at hv <;>
    (first
      | (rcases hv with rfl | rfl | rfl | rfl)
      | (rcases hv with rfl | rfl | rfl)
      | (rcases hv with rfl | rfl)
      | (rcases hv with rfl)) <;>
    (refine ⟨by simp, fun h => ?_⟩
     first
       | exact Or.inl rfl
       | exact Or.inr rfl
       | exact absurd h (by simp))

/-- Every violation the full rule set emits is structurally well-formed. -/
lemma runAllRules_ok (c : ParsedCitation) (v : ValidationError)
    (hv : v ∈ runAllRules c) : violationOk v := by
  simp only [runAllRules, ALL_RULES, ROUTED_RULES, List.map_cons, List.map_nil,
    List.flatMap_cons, List.flatMap_nil, List.append_nil, List.mem_append] at hv
  rcases hv with h|h|h|h|h|h|h|h|h|h|h|h|h|h|h|h|h|h|h|h|h
  · exact ok_checkAuthorFormat c v h
  · exact ok_checkYearFormat c v h
  · exact ok_checkTitleCase c v h
  · exact ok_checkDOIFormat c v h
  · exact ok_checkAmpersand c v h
  · exact ok_checkTerminalPeriod c v h
  · exact ok_checkDOIPresence c v h
  · exact ok_checkVolumeIssueFormat c v h
  · exact ok_checkJournalNameCase c v h
  · exact ok_checkPageFormat c v h
  · exact ok_checkConferenceNameCase c v h
  · exact ok_checkChapterEditors c v h
  · exact ok_checkInPrefixRule c v h
  · exact ok_checkPublisherRequired c v h
  · exact ok_checkEditionFormat c v h
  · exact ok_checkPublisherLocation c v h
  · exact ok_checkFullDateRequired c v h
  · exact ok_checkConferenceInfo c v h
  · exact ok_checkBracketType c v h
  · exact ok_checkDissertationInfo c v h
  · exact ok_checkReportNumber c v h

/-! ## Claim C1: the scoring arithmetic -/

/-- Number of violations of a given severity. -/
def countSev (errors : List ValidationError) (sev : Severity) : Nat :=
  (errors.filter (fun e => e.severity = sev)).length

/-- The add-back a single applied fix earns, per the specification: half of
the deduction of the originating violation, found by rule and field. -/
def addBackOf (errors : List ValidationError) (f : AutoFix) : ℚ :=
  match errors.find? (fun e => e.rule = f.rule && e.field = f.field) with
  | some v =>
    match v.severity with
    | .error => 15 / 2
    | .warning => 5
    | .info => 5 / 2
  | none => 0

/-- The score as the specification words it: start at 100; subtract 15 per
error, 10 per warning, 5 per info; add back 7.5 / 5 / 2.5 per applied fix
whose originating violation is found; clamp to [0, 100]; round to the
nearest integer. -/
def scoreSpec (errors : List ValidationError) (autoFixes : List AutoFix) : Int :=
  let base : ℚ :=
    100 - 15 * (countSev errors .error : ℚ) - 10 * (countSev errors .warning : ℚ)
      - 5 * (countSev errors .info : ℚ)
      + (autoFixes.map (addBackOf errors)).sum
  jsRound (min 100 (max 0 base))

lemma foldl_sub_pen (l : List ValidationError) (a : ℚ) :
    l.foldl (fun s e => s - sevPenalty e.severity) a
      = a - (l.map (fun e => sevPenalty e.severity)).sum := by
  induction l generalizing a with
  | nil => simp
  | cons x xs ih => simp [ih]; ring

lemma pen_sum (l : List ValidationError) :
    (l.map (fun e => sevPenalty e.severity)).sum
      = 15 * (countSev l .error : ℚ) + 10 * (countSev l .warning : ℚ)
        + 5 * (countSev l .info : ℚ) := by
  induction l with
  | nil => simp [countSev]
  | cons x xs ih =>
    have hcnt : ∀ sev, countSev (x :: xs) sev =
        countSev xs sev + (if x.severity = sev then 1 else 0) := by
      intro sev
      simp only [countSev, List.filter_cons]
      split <;> rename_i hd
      · simp at hd
        simp [hd]
      · simp at hd
        simp [hd]
    rw [List.map_cons, List.sum_cons, ih, hcnt, hcnt, hcnt]
    cases hx : x.severity <;> simp [sevPenalty, hx, Nat.cast_add, Nat.cast_one] <;> ring

lemma foldl_add_fix (errors : List ValidationError) (l : List AutoFix) (a : ℚ) :
    l.foldl (fun s f =>
      match errors.find? (fun e => e.rule = f.rule && e.field = f.field) with
      | some originalError => s + sevAddBack originalError.severity
      | none => s) a
      = a + (l.map (addBackOf errors)).sum := by
  induction l generalizing a with
  | nil => simp
  | cons x xs ih =>
    simp only [List.foldl_cons, List.map_cons, List.sum_cons, ih]
    rcases hf : errors.find? (fun e => e.rule = x.rule && e.field = x.field) with _ | v
    · simp [addBackOf, hf]
    · cases hv : v.severity <;> simp [addBackOf, hf, sevAddBack, hv] <;> ring

lemma jsRound_mono {p q : ℚ} (h : p ≤ q) : jsRound p ≤ jsRound q := by
  rw [jsRound_eq_intFloor, jsRound_eq_intFloor]
  exact Int.floor_le_floor (by exact add_le_add_right h _)

lemma jsRound_hundred : jsRound (100 : ℚ) = 100 := by
  rw [jsRound_eq_intFloor]; norm_num

lemma jsRound_zero : jsRound (0 : ℚ) = 0 := by
  rw [jsRound_eq_intFloor]; norm_num

/-- Rounding and clamping commute (the clamp bounds are integers). -/
lemma jsRound_clamp (q : ℚ) :
    jsRound (min 100 (max 0 q)) = max 0 (min 100 (jsRound q)) := by
  rcases le_total q 0 with h0 | h0
  · have hmax : max (0 : ℚ) q = 0 := max_eq_left h0
    have hr : jsRound q ≤ 0 := by
      simpa [jsRound_zero] using jsRound_mono h0
    rw [hmax]
    have : min (100 : ℚ) 0 = 0 := by norm_num
    rw [this, jsRound_zero]
    omega
  · rcases le_total 100 q with h1 | h1
    · have hmax : max (0 : ℚ) q = q := max_eq_right h0
      have hmin : min (100 : ℚ) q = 100 := min_eq_left h1
      have hr : 100 ≤ jsRound q := by
        simpa [jsRound_hundred] using jsRound_mono h1
      rw [hmax, hmin, jsRound_hundred]
      omega
    · have hmax : max (0 : ℚ) q = q := max_eq_right h0
      have hmin : min (100 : ℚ) q = q := min_eq_right h1
      have hlo : 0 ≤ jsRound q := by
        simpa [jsRound_zero] using jsRound_mono h0
      have hhi : jsRound q ≤ 100 := by
        simpa [jsRound_hundred] using jsRound_mono h1
      rw [hmax, hmin]
      omega

/-- `calculateScore` computes exactly the specified clamp-and-round of the
severity arithmetic. -/
lemma calculateScore_eq_scoreSpec (errors : List ValidationError) (autoFixes : List AutoFix) :
    calculateScore errors autoFixes = scoreSpec errors autoFixes := by
  unfold calculateScore scoreSpec
  dsimp only
  rw [foldl_add_fix, foldl_sub_pen, pen_sum, ← jsRound_clamp]
  congr 1
  congr 1
  congr 1
  ring

/-- A minimal violation of a given severity (shape of the unit tests). -/
def testViolation (sev : Severity) : ValidationError :=
  { rule := "test", field := "test", message := "", severity := sev,
    original := "", autoFixable := false }

/-- The auto-fixed warning of the scoring examples. -/
def titleCaseWarning : ValidationError :=
  { rule := "titleCase", field := "title", message := "", severity := .warning,
    original := "", autoFixable := true }

def titleCaseFix : AutoFix :=
  { rule := "titleCase", field := "title", original := "", fixed := "", description := "" }

/-- Claim C1: `calculateScore` returns 100 minus 15 per error-severity
violation, minus 10 per warning, minus 5 per info, plus 7.5 / 5 / 2.5 added
back for each applied fix whose originating violation is found (matched by
rule and field), with the result clamped to [0, 100] and rounded to the
nearest integer; in particular `score([], []) = 100`, one unfixed error
scores 85, one unfixed warning scores 90, one auto-fixed warning scores 95,
and ten unfixed errors score 0. -/
theorem C1_calculateScore_spec :
    (∀ errors autoFixes, calculateScore errors autoFixes = scoreSpec errors autoFixes) ∧
    (∀ errors autoFixes, 0 ≤ calculateScore errors autoFixes ∧
      calculateScore errors autoFixes ≤ 100) ∧
    calculateScore [] [] = 100 ∧
    calculateScore [testViolation .error] [] = 85 ∧
    calculateScore [testViolation .warning] [] = 90 ∧
    calculateScore [titleCaseWarning] [titleCaseFix] = 95 ∧
    calculateScore (List.replicate 10 (testViolation .error)) [] = 0 := by
  refine ⟨fun errors autoFixes => calculateScore_eq_scoreSpec errors autoFixes,
    fun errors autoFixes => ?_,
    by simp [calculateScore, jsRound_eq_intFloor]; norm_num,
    by simp [calculateScore, jsRound_eq_intFloor, testViolation, sevPenalty]; norm_num,
    by simp [calculateScore, jsRound_eq_intFloor, testViolation, sevPenalty]; norm_num,
    by simp [calculateScore, jsRound_eq_intFloor, titleCaseWarning, titleCaseFix,
         sevPenalty, sevAddBack, List.find?]; norm_num,
    by simp [calculateScore, jsRound_eq_intFloor, testViolation, sevPenalty,
         List.replicate]; norm_num⟩
  unfold calculateScore
  constructor
  · exact le_max_left _ _
  · exact max_le (by norm_num) (min_le_left _ _)

/-! ## Claim C10: duplicate rule+field violations make the score
order-dependent -/

/-- A journal citation whose pages carry both a `pp.` prefix and a
hyphenated range. -/
def C10cite : ParsedCitation :=
  { raw := "", authors := [], year := "2024", title := "Some title",
    source := "Journal", volume := some "45", issue := some "2",
    pages := some "pp. 123-145", ctype := .journal }

/-- The `pp.`-prefix violation `checkPageFormat` emits for `C10cite`. -/
def C10ppViolation : ValidationError :=
  { rule := "pageFormat", field := "pages",
    message := "Page numbers should not include \"pp.\" prefix for journal articles",
    severity := .error, original := "pp. 123-145",
    suggested := some "123-145", autoFixable := true }

/-- The hyphen-range violation `checkPageFormat` emits for `C10cite`. -/
def C10dashViolation : ValidationError :=
  { rule := "pageFormat", field := "pages",
    message := "Page range should use en dash (–) not hyphen (-)",
    severity := .warning, original := "pp. 123-145",
    suggested := some "123–145", autoFixable := true }

def C10fix1 : AutoFix :=
  { rule := "pageFormat", field := "pages", original := "pp. 123-145",
    fixed := "123-145", description := "Removed \"pp.\" prefix" }

def C10fix2 : AutoFix :=
  { rule := "pageFormat", field := "pages", original := "123-145",
    fixed := "123–145", description := "Changed hyphen to en dash" }

/-- Claim C10: `checkPageFormat` can emit, for one citation, an error (for
the `pp.` prefix) and a warning (for the hyphenated range) that share the
rule `pageFormat` and the field `pages`; `calculateScore`'s add-back for
every applied fix with that rule and field uses the severity of the first
matching violation in the list, so the computed score depends on the order
of the violations list (90 in emitted order, 85 reversed). -/
theorem C10_score_order_dependent :
    checkPageFormat C10cite = [C10ppViolation, C10dashViolation] ∧
    (applyFixesState C10cite (checkPageFormat C10cite)).2.1 = [C10fix1, C10fix2] ∧
    C10ppViolation.rule = C10dashViolation.rule ∧
    C10ppViolation.field = C10dashViolation.field ∧
    C10ppViolation.severity = Severity.error ∧
    C10dashViolation.severity = Severity.warning ∧
    calculateScore [C10ppViolation, C10dashViolation] [C10fix1, C10fix2] = 90 ∧
    calculateScore [C10dashViolation, C10ppViolation] [C10fix1, C10fix2] = 85 := by
  refine ⟨by decide, by decide, rfl, rfl, rfl, rfl, ?_, ?_⟩
  · simp [calculateScore, jsRound_eq_intFloor, C10ppViolation, C10dashViolation,
      C10fix1, C10fix2, sevPenalty, sevAddBack, List.find?]
    norm_num
  · simp [calculateScore, jsRound_eq_intFloor, C10ppViolation, C10dashViolation,
      C10fix1, C10fix2, sevPenalty, sevAddBack, List.find?]
    norm_num

/-! ## Claim C3: DOI canonicalization round-trip -/

/-- A citation carrying only a `doi` value (the field the DOI-format rule
and its fixes touch). -/
def C3cite (d : String) : ParsedCitation :=
  { raw := "", authors := [], year := "", title := "", source := "",
    ctype := .unknown, doi := some d }

/-- The record produced by applying the DOI-format rule's auto-fixes. -/
def C3fixedRecord (d : String) : ParsedCitation :=
  (applyFixesState (C3cite d) (checkDOIFormat (C3cite d))).1

/-- Claim C3: for a citation whose `doi` field is `"doi:10.1234/test"`,
`"10.1234/test"`, or `"https://doi.org/10.1234/test."` (trailing period),
running the DOI-format rule and applying its auto-fixable suggestions via
`applyAutoFixes` yields a corrected `doi` equal to exactly
`"https://doi.org/10.1234/test"` in each of the three cases (and the
reconstructed string is exactly that URL, the only populated part). -/
theorem C3_doi_autofix_canonical :
    (C3fixedRecord "doi:10.1234/test").doi = some "https://doi.org/10.1234/test" ∧
    (C3fixedRecord "10.1234/test").doi = some "https://doi.org/10.1234/test" ∧
    (C3fixedRecord "https://doi.org/10.1234/test.").doi = some "https://doi.org/10.1234/test" ∧
    (applyAutoFixes (C3cite "doi:10.1234/test")
      (checkDOIFormat (C3cite "doi:10.1234/test"))).1 = "https://doi.org/10.1234/test" ∧
    (applyAutoFixes (C3cite "10.1234/test")
      (checkDOIFormat (C3cite "10.1234/test"))).1 = "https://doi.org/10.1234/test" ∧
    (applyAutoFixes (C3cite "https://doi.org/10.1234/test.")
      (checkDOIFormat (C3cite "https://doi.org/10.1234/test."))).1 = "https://doi.org/10.1234/test" := by
  refine ⟨by decide, by decide, by decide, by decide, by decide, by decide⟩

/-! ## Claim C4: the no-year fallback record -/

/-- Claim C4 (amended): `parseCitation` is total (it is a function of the
embedding), and for every input in which the year/date token pattern finds
no match, it returns the fallback record whose `title` and `raw` are the
whitespace-trimmed input, with no authors, empty year and source, and type
`unknown`.  (As stated the claim says the title is the whole input; the code
trims it first — see the counterexample.) -/
theorem C4_parse_fallback (text : String)
    (h : reSearch yearRe (jsTrim text).data = none) :
    parseCitation text =
      { raw := jsTrim text, authors := [], year := "", title := jsTrim text,
        source := "", ctype := .unknown } := by
  unfold parseCitation
  simp only [h]

/-- Witness for C4 at a concrete year-free input. -/
theorem C4_parse_fallback_witness :
    reSearch yearRe (jsTrim "Just a note with no date").data = none ∧
    parseCitation "Just a note with no date" =
      { raw := "Just a note with no date", authors := [], year := "",
        title := "Just a note with no date", source := "", ctype := .unknown } := by
  refine ⟨by decide, ?_⟩
  have h : reSearch yearRe (jsTrim "Just a note with no date").data = none := by decide
  have := C4_parse_fallback "Just a note with no date" h
  rw [this]
  decide

/-- Counterexample to C4 as stated: for the year-free input
`" untitled note "` the fallback title is the trimmed input, not the whole
input. -/
theorem C4_counterexample :
    reSearch yearRe (jsTrim " untitled note ").data = none ∧
    (parseCitation " untitled note ").title = "untitled note" ∧
    (parseCitation " untitled note ").title ≠ " untitled note " := by
  refine ⟨by decide, by decide, by decide⟩

/-! ## Claim C5: ordered source-pattern disambiguation -/

def C5journalText : String :=
  "Kim, B. Y., & Lee, S. H. (2024). The impact of AI on education. Journal of Educational Technology, 45(2), 123-145."

def C5chapterText : String :=
  "Author, A. (2023). Chapter title. In Book Title (pp. 20-31). Publisher."

/-- The source segment the parser dispatches for `C5chapterText`. -/
def C5chapterSeg : String := "In Book Title (pp. 20-31). Publisher."

/-- Claim C5: the journal example parses to type `journal` with 2 authors,
volume 45, issue 2, pages 123-145; the chapter example parses to type
`chapter` with a source containing "In" and pages 20-31 — and on the
chapter's source segment the lower-priority journal pattern also matches,
so the outcome is decided by the chapter pattern's higher priority
(first-match-wins order). -/
theorem C5_pattern_disambiguation :
    (parseCitation C5journalText).ctype = .journal ∧
    (parseCitation C5journalText).authors.length = 2 ∧
    (parseCitation C5journalText).volume = some "45" ∧
    (parseCitation C5journalText).issue = some "2" ∧
    (parseCitation C5journalText).pages = some "123-145" ∧
    (parseCitation C5chapterText).ctype = .chapter ∧
    jsIncludes (parseCitation C5chapterText).source "In" = true ∧
    (parseCitation C5chapterText).pages = some "20-31" ∧
    (splitByPeriods "Chapter title. In Book Title (pp. 20-31). Publisher.").drop 1 =
      ["In Book Title (pp. 20-31)", "Publisher."] ∧
    (reMatchA journalNoIssuePat.regex C5chapterSeg.data).isSome = true ∧
    (reMatchA simpleChapterPat.regex C5chapterSeg.data).isSome = true ∧
    ((tryPatterns SOURCE_PATTERNS C5chapterSeg.data
        { raw := "", authors := [], year := "", title := "", source := "",
          ctype := .unknown }).map (·.ctype)) = some CType.chapter := by
  have h1 : parseCitation C5journalText =
      { raw := C5journalText,
        authors := [{ lastName := "Kim", initials := "B. Y." },
                    { lastName := "Lee", initials := "S. H." }],
        year := "2024", title := "The impact of AI on education",
        source := "Journal of Educational Technology",
        volume := some "45", issue := some "2", pages := some "123-145",
        ctype := .journal } := by decide
  have h2 : parseCitation C5chapterText =
      { raw := C5chapterText,
        authors := [{ lastName := "Author", initials := "A." }],
        year := "2023", title := "Chapter title",
        source := "In Book Title", pages := some "20-31",
        publisher := some "Publisher", ctype := .chapter } := by decide
  refine ⟨by rw [h1], by rw [h1]; rfl, by rw [h1], by rw [h1], by rw [h1],
    by rw [h2], by rw [h2]; decide, by rw [h2],
    by decide, by decide, by decide, by decide⟩

/-! ## Claim C8: author-list rendering in `reconstructCitation` -/

lemma authorEntry_small {n : Nat} (hn : ¬ 20 < n) (i : Nat) (a : Author) :
    authorEntryRender n i a = some (renderAuthor a) := by
  simp [authorEntryRender, hn]

lemma strings_small {n : Nat} (hn : ¬ 20 < n) (l : List Author) (s : Nat) :
    (List.enumFrom s l).filterMap (fun p => authorEntryRender n p.1 p.2)
      = l.map renderAuthor := by
  induction l generalizing s with
  | nil => simp
  | cons a t ih =>
    rw [List.enumFrom_cons, List.filterMap_cons, authorEntry_small hn, List.map_cons, ih]

lemma strings_low (n : Nat) (l : List Author) :
    ∀ s : Nat, s + l.length ≤ 19 →
    (List.enumFrom s l).filterMap (fun p => authorEntryRender n p.1 p.2)
      = l.map renderAuthor := by
  induction l with
  | nil => intro s _; simp
  | cons a t ih =>
    intro s hs
    simp only [List.length_cons] at hs
    have h19 : s ≠ 19 := by omega
    have hlt : ¬ 19 < s := by omega
    rw [List.enumFrom_cons, List.filterMap_cons,
      show authorEntryRender n s a = some (renderAuthor a) from by
        simp [authorEntryRender, h19, hlt],
      List.map_cons, ih (s + 1) (by omega)]

lemma strings_tail {n : Nat} (hn : 20 < n) (l : List Author) :
    ∀ (x : Author) (s : Nat), 20 ≤ s → s + l.length + 1 = n →
    (List.enumFrom s (l ++ [x])).filterMap (fun p => authorEntryRender n p.1 p.2)
      = [renderAuthor x] := by
  induction l with
  | nil =>
    intro x s hs hsum
    simp only [List.length_nil] at hsum
    have hne : s ≠ 19 := by omega
    have hnlt : ¬ s < n - 1 := by omega
    simp only [List.nil_append, List.enumFrom_cons, List.filterMap_cons,
      show authorEntryRender n s x = some (renderAuthor x) from by
        simp [authorEntryRender, hne, hnlt]]
    simp
  | cons a t ih =>
    intro x s hs hsum
    simp only [List.length_cons] at hsum
    have hne : s ≠ 19 := by omega
    have h19 : 19 < s := by omega
    have hlt : s < n - 1 := by omega
    rw [List.cons_append, List.enumFrom_cons, List.filterMap_cons,
      show authorEntryRender n s a = none from by
        simp only [authorEntryRender]
        rw [if_neg, if_pos]
        · simp only [Bool.and_eq_true, decide_eq_true_eq]
          exact ⟨⟨hn, h19⟩, hlt⟩
        · simp only [Bool.and_eq_true, decide_eq_true_eq, not_and]
          intro _
          exact hne]
    exact ih x (s + 1) (by omega) (by omega)

lemma joinAuthorStrings_big (l : List String) (h : 3 ≤ l.length) :
    joinAuthorStrings l = joinSep ", " l.dropLast ++ ", & " ++ l.getLastD "undefined" := by
  cases l with
  | nil => simp at h
  | cons a l1 =>
    cases l1 with
    | nil => simp at h
    | cons b l2 =>
      cases l2 with
      | nil => simp at h
      | cons c t => rfl

lemma filter_keep (l : List String) (h : ∀ s ∈ l, s ≠ "") :
    l.filter (fun s => s ≠ "") = l := by
  rw [List.filter_eq_self]
  exact fun s hs => decide_eq_true (h s hs)

/-- Claim C8, corrected: for author lists in which every author renders to a
non-empty string, `reconstructCitation` renders the list as follows: one
author as-is; two authors joined by `", & "`; 3–20 authors comma-joined with
`"& "` before the last; more than 20 authors as the first 19 authors, then a
literal ellipsis token, then (after `", & "`) the final author. The original
claim, over all author lists, fails because `.filter(Boolean)` drops authors
that render to the empty string (group authors with an empty name), shifting
the count regimes: see the counterexample. -/
theorem C8_author_list_rendering :
    (∀ a, renderAuthor a ≠ "" →
      joinAuthorStrings (authorStringsOf [a]) = renderAuthor a) ∧
    (∀ a b, renderAuthor a ≠ "" → renderAuthor b ≠ "" →
      joinAuthorStrings (authorStringsOf [a, b]) =
        renderAuthor a ++ ", & " ++ renderAuthor b) ∧
    (∀ (xs : List Author) (x : Author), (∀ a ∈ xs ++ [x], renderAuthor a ≠ "") →
      3 ≤ (xs ++ [x]).length → (xs ++ [x]).length ≤ 20 →
      joinAuthorStrings (authorStringsOf (xs ++ [x])) =
        joinSep ", " (xs.map renderAuthor) ++ ", & " ++ renderAuthor x) ∧
    (∀ (xs : List Author) (x : Author), (∀ a ∈ xs ++ [x], renderAuthor a ≠ "") →
      20 < (xs ++ [x]).length →
      joinAuthorStrings (authorStringsOf (xs ++ [x])) =
        joinSep ", " ((xs.take 19).map renderAuthor ++ ["..."]) ++ ", & " ++ renderAuthor x) := by
  refine ⟨?one, ?two, ?mid, ?big⟩
  case one =>
    intro a ha
    rw [authorStringsOf, List.enum_eq_enumFrom, strings_small (by simp)]
    rw [filter_keep _ (by
      intro s hs
      simp only [List.map_cons, List.map_nil, List.mem_singleton] at hs
      subst hs
      exact ha)]
    rfl
  case two =>
    intro a b ha hb
    rw [authorStringsOf, List.enum_eq_enumFrom, strings_small (by simp)]
    rw [filter_keep _ (by
      intro s hs
      simp only [List.map_cons, List.map_nil, List.mem_cons, List.not_mem_nil,
        or_false] at hs
      rcases hs with hs | hs <;> subst hs
      · exact ha
      · exact hb)]
    rfl
  case mid =>
    intro xs x hall h3 h20
    rw [authorStringsOf, List.enum_eq_enumFrom,
      strings_small (by simpa using h20), List.map_append]
    simp only [List.map_cons, List.map_nil]
    rw [filter_keep _ (by
      intro s hs
      rw [List.mem_append] at hs
      rcases hs with hs | hs
      · rw [List.mem_map] at hs
        obtain ⟨a, ha, rfl⟩ := hs
        exact hall a (List.mem_append.mpr (Or.inl ha))
      · rw [List.mem_singleton] at hs
        subst hs
        exact hall x (List.mem_append.mpr (Or.inr (List.mem_singleton.mpr rfl))))]
    have hlen : 3 ≤ (xs.map renderAuthor ++ [renderAuthor x]).length := by
      simpa using h3
    rw [joinAuthorStrings_big _ hlen]
    rw [List.dropLast_concat, List.getLastD_concat]
  case big =>
    intro xs x hall hbig
    simp only [List.length_append, List.length_singleton] at hbig
    have hxs : 20 ≤ xs.length := by omega
    have hdecomp : xs ++ [x] = xs.take 19 ++ (xs.drop 19 ++ [x]) := by
      rw [← List.append_assoc, List.take_append_drop]
    have hdrop : ∃ d rest, xs.drop 19 = d :: rest := by
      rcases hd : xs.drop 19 with _ | ⟨d, rest⟩
      · have := List.length_drop 19 xs
        rw [hd] at this
        simp at this
        omega
      · exact ⟨d, rest, rfl⟩
    obtain ⟨d, rest, hd⟩ := hdrop
    have htake : (xs.take 19).length = 19 := by
      rw [List.length_take]
      omega
    have hrest : rest.length = xs.length - 20 := by
      have := List.length_drop 19 xs
      rw [hd] at this
      simp at this
      omega
    rw [authorStringsOf, List.enum_eq_enumFrom]
    generalize hN : (xs ++ [x]).length = N
    have hNval : N = xs.length + 1 := by
      rw [← hN]
      simp
    rw [hdecomp, List.enumFrom_append, List.filterMap_append]
    rw [strings_low N (xs.take 19) 0 (by rw [Nat.zero_add, htake])]
    rw [hd, List.cons_append, List.enumFrom_cons]
    have hsome : authorEntryRender N (0 + (xs.take 19).length) d = some "..." := by
      rw [htake]
      simp only [authorEntryRender]
      have h1 : (20 : Nat) < N := by omega
      simp [h1]
    simp only [List.filterMap_cons, hsome]
    rw [htake]
    rw [show (0 : Nat) + 19 + 1 = 20 from rfl]
    have hA : (20 : Nat) < N := by omega
    have hC : 20 + rest.length + 1 = N := by omega
    rw [strings_tail hA rest x 20 (le_refl 20) hC]
    rw [filter_keep _ (by
      intro s hs
      rw [List.mem_append] at hs
      rcases hs with hs | hs
      · rw [List.mem_map] at hs
        obtain ⟨a, ha, rfl⟩ := hs
        exact hall a (List.mem_append.mpr (Or.inl (List.mem_of_mem_take ha)))
      · simp only [List.mem_cons, List.not_mem_nil, or_false] at hs
        rcases hs with hs | hs <;> subst hs
        · simp
        · exact hall x (List.mem_append.mpr (Or.inr (List.mem_singleton.mpr rfl))))]
    have hlen3 : 3 ≤ ((xs.take 19).map renderAuthor ++ ("..." :: [renderAuthor x])).length := by
      simp
      omega
    rw [joinAuthorStrings_big _ hlen3]
    have hsplit : (xs.take 19).map renderAuthor ++ ("..." :: [renderAuthor x])
        = ((xs.take 19).map renderAuthor ++ ["..."]) ++ [renderAuthor x] := by
      simp
    rw [hsplit, List.dropLast_concat, List.getLastD_concat]

/-- Witness for C8 at concrete author lists of length 21 and 3. -/
def wAuth : Author := { lastName := "Kim", initials := "B. Y." }

theorem C8_author_list_rendering_witness :
    ((∀ a ∈ List.replicate 20 wAuth ++ [wAuth], renderAuthor a ≠ "") ∧
      20 < (List.replicate 20 wAuth ++ [wAuth]).length ∧
      joinAuthorStrings (authorStringsOf (List.replicate 20 wAuth ++ [wAuth])) =
        joinSep ", " (((List.replicate 20 wAuth).take 19).map renderAuthor ++ ["..."]) ++
          ", & " ++ renderAuthor wAuth) ∧
    ((∀ a ∈ [wAuth, wAuth] ++ [wAuth], renderAuthor a ≠ "") ∧
      3 ≤ ([wAuth, wAuth] ++ [wAuth]).length ∧ ([wAuth, wAuth] ++ [wAuth]).length ≤ 20 ∧
      joinAuthorStrings (authorStringsOf ([wAuth, wAuth] ++ [wAuth])) =
        joinSep ", " ([wAuth, wAuth].map renderAuthor) ++ ", & " ++ renderAuthor wAuth) :=
  ⟨⟨by decide, by decide,
    C8_author_list_rendering.2.2.2 (List.replicate 20 wAuth) wAuth (by decide) (by decide)⟩,
   ⟨by decide, by decide, by decide,
    C8_author_list_rendering.2.2.1 [wAuth, wAuth] wAuth (by decide) (by decide) (by decide)⟩⟩

/-- Counterexample to C8 as stated: `.filter(Boolean)` drops authors that
render to the empty string, so a two-author list containing a group author
with an empty name renders as the remaining single author, not as the
two-author `", & "` join the claim asserts. -/
theorem C8_counterexample :
    authorStringsOf
        [{ lastName := "", initials := "", isGroupAuthor := true },
         { lastName := "Kim", initials := "B. Y." }] = ["Kim, B. Y."]
    ∧ joinAuthorStrings (authorStringsOf
        [{ lastName := "", initials := "", isGroupAuthor := true },
         { lastName := "Kim", initials := "B. Y." }]) = "Kim, B. Y."
    ∧ joinAuthorStrings (authorStringsOf
        [{ lastName := "", initials := "", isGroupAuthor := true },
         { lastName := "Kim", initials := "B. Y." }])
      ≠ renderAuthor { lastName := "", initials := "", isGroupAuthor := true }
        ++ ", & " ++ renderAuthor { lastName := "Kim", initials := "B. Y." } :=
  ⟨by decide, by decide, by decide⟩


/-! ## Claim C2: auto-fixable violations and suggestions -/

/-- A journal record whose page field carries a `pp.` prefix; `checkPageFormat`
emits an auto-fixable violation with a suggestion for it. -/
def C2cite : ParsedCitation :=
  { raw := "x", authors := [], year := "2024", title := "t", source := "s",
    ctype := CType.journal, pages := some "pp. 1-2" }

/-- The violation `checkPageFormat` emits for `C2cite`. -/
def C2v : ValidationError :=
  { rule := "pageFormat", field := "pages",
    message := "Page numbers should not include \"pp.\" prefix for journal articles",
    severity := Severity.error, original := "pp. 1-2",
    suggested := some "1-2", autoFixable := true }

/-- A two-author citation joined with " and ", which triggers the
`ampersand` rule. -/
def C2andText : String :=
  "Kim, B. Y. and Lee, S. H. (2024). The impact of sleep. Journal of Psychology, 45(2), 123-145."

/-- C2, corrected: among all violations the full rule set can emit, an
auto-fixable one either carries a suggested value or belongs to the
`ampersand` rule, which `applyAutoFixes` repairs structurally during
reconstruction without a suggested string. The original claim, that every
auto-fixable violation carries a suggestion, fails exactly on `ampersand`. -/
theorem C2_autofixable_has_suggestion (c : ParsedCitation) (v : ValidationError)
    (hv : v ∈ runAllRules c) (hfix : v.autoFixable = true) :
    v.rule = "ampersand" ∨ v.suggested.isSome = true :=
  (runAllRules_ok c v hv).2 hfix

/-- Witness: the concrete auto-fixable page-format violation of `C2cite` is
emitted by the rule set and indeed carries a suggestion. -/
theorem C2_autofixable_has_suggestion_witness :
    C2v ∈ runAllRules C2cite ∧ C2v.autoFixable = true ∧
      (C2v.rule = "ampersand" ∨ C2v.suggested.isSome = true) :=
  ⟨by decide, by decide,
   C2_autofixable_has_suggestion C2cite C2v (by decide) (by decide)⟩

/-- Counterexample to C2 as stated: parsing a two-author citation joined with
" and " makes the rule set emit exactly one violation that is auto-fixable yet
has no suggested value — the `ampersand` violation. -/
theorem C2_counterexample :
    ((runAllRules (parseCitation C2andText)).filter
        (fun v => v.autoFixable && v.suggested.isNone)).map
      (fun v => (v.rule, v.autoFixable, v.suggested))
      = [("ampersand", true, none)] := by decide

/-! ## Claim C7: reconstruction round-trip -/

/-- A conference citation whose parse has zero violations and whose
reconstruction is byte-identical to the input. -/
def C7confText : String :=
  "Kim, J. (2024, March 1). New findings [Paper presentation]. APA Meeting, Boston, MA."

/-- A book citation whose parse also has zero violations, but whose
reconstruction re-parses differently. -/
def C7bookText : String :=
  "Kim, J. (2023). Psychology of learning (4th ed.). Academic Press."

/-- C7, corrected: the round trip does hold when reconstruction reproduces
the input, as it does for this zero-violation conference citation: the rule
set emits nothing, `reconstructCitation` returns the original string, and
re-parsing therefore yields the identical structured record. The universal
claim fails: see the counterexample, a zero-violation book citation whose
reconstruction parses to a different record. -/
theorem C7_roundtrip_zero_violations :
    runAllRules (parseCitation C7confText) = []
    ∧ reconstructCitation (parseCitation C7confText) = C7confText
    ∧ parseCitation (reconstructCitation (parseCitation C7confText))
        = parseCitation C7confText := by
  refine ⟨by decide, by decide, ?_⟩
  have h : reconstructCitation (parseCitation C7confText) = C7confText := by decide
  rw [h]

/-- Counterexample to C7 as stated: this book citation has zero violations,
yet re-parsing its reconstruction does not reproduce the parsed record (the
reconstruction duplicates the title, so the re-parsed publisher differs). -/
theorem C7_counterexample :
    runAllRules (parseCitation C7bookText) = []
    ∧ parseCitation (reconstructCitation (parseCitation C7bookText))
        ≠ parseCitation C7bookText :=
  ⟨by decide, by decide⟩

/-! ## Claim C6: initials normalization -/

/-- Checker for the canonical form the specification describes: one or more
upper-case letters, each followed by a period, separated by single spaces
("B. Y."). Written from the specification for comparison with the parser. -/
def canonCheck : Chars → Bool
  | c :: '.' :: [] => isUpperAZ c
  | c :: '.' :: ' ' :: rest => isUpperAZ c && canonCheck rest
  | _ => false

/-- Canonical-or-empty initials, per the specification's wording. -/
def isCanonicalInitials (s : String) : Bool :=
  s.data.isEmpty || canonCheck s.data

/-- The character sequence `normalizeInitials` produces from its extracted
upper-case letters. -/
def canonData : Chars → Chars
  | [] => []
  | [c] => [c, '.']
  | c :: rest => c :: '.' :: ' ' :: canonData rest

lemma go_data (acc : String) (l : List String) :
    (String.intercalate.go acc " " l).data
      = acc.data ++ l.flatMap (fun x => ' ' :: x.data) := by
  induction l generalizing acc with
  | nil =>
    show acc.data = acc.data ++ []
    rw [List.append_nil]
  | cons a as ih =>
    have h : String.intercalate.go acc " " (a :: as)
        = String.intercalate.go (acc ++ " " ++ a) " " as := rfl
    rw [h, ih]
    have hd : (acc ++ " " ++ a).data = (acc.data ++ [' ']) ++ a.data := rfl
    rw [hd]
    simp [List.append_assoc]

lemma canonData_flat (c : Char) (rest : Chars) :
    canonData (c :: rest) = c :: '.' :: rest.flatMap (fun d => [' ', d, '.']) := by
  induction rest generalizing c with
  | nil => rfl
  | cons d r ih =>
    show c :: '.' :: ' ' :: canonData (d :: r) = _
    rw [ih]
    rfl

lemma dot_strings_flat (rest : Chars) :
    (rest.map (fun x => String.mk [x, '.'])).flatMap (fun x => ' ' :: x.data)
      = rest.flatMap (fun d => [' ', d, '.']) := by
  induction rest with
  | nil => rfl
  | cons d r ih => simp only [List.map_cons, List.flatMap_cons, ih]

lemma join_data (letters : Chars) :
    (joinSep " " (letters.map (fun c => String.mk [c, '.']))).data
      = canonData letters := by
  cases letters with
  | nil => rfl
  | cons c rest =>
    have h : joinSep " " ((c :: rest).map (fun x => String.mk [x, '.']))
        = String.intercalate.go (String.mk [c, '.']) " "
            (rest.map (fun x => String.mk [x, '.'])) := rfl
    rw [h, go_data, canonData_flat, dot_strings_flat]
    rfl

lemma canonCheck_canonData (letters : Chars)
    (hall : ∀ c ∈ letters, isUpperAZ c = true) (hne : letters ≠ []) :
    canonCheck (canonData letters) = true := by
  induction letters with
  | nil => exact absurd rfl hne
  | cons c rest ih =>
    cases rest with
    | nil =>
      show isUpperAZ c = true
      exact hall c (List.mem_singleton.mpr rfl)
    | cons d r =>
      show (isUpperAZ c && canonCheck (canonData (d :: r))) = true
      rw [hall c (List.mem_cons_self c (d :: r)),
        ih (fun x hx => hall x (List.mem_cons_of_mem c hx)) (by simp)]
      rfl

lemma normalizeInitials_canonical (s : String) :
    isCanonicalInitials (normalizeInitials s) = true := by
  unfold normalizeInitials isCanonicalInitials
  rw [join_data]
  rcases hl : s.data.filter isUpperAZ with - | ⟨c, rest⟩
  · rfl
  · have hall : ∀ x ∈ c :: rest, isUpperAZ x = true := by
      rw [← hl]; exact fun x hx => (List.mem_filter.mp hx).2
    rw [canonCheck_canonData (c :: rest) hall (by simp), Bool.or_true]

/-- C6, corrected: every author `parseAuthors` emits has initials that are
either empty (group authors, and individual names whose initials fail the
strict capital-then-period pattern) or exactly in canonical "X. Y." form;
the literal "Kim, B.Y. (2024). …" citation parses to initials "B. Y."; and
the World Health Organization citation parses to a single group author with
empty initials for which `checkAuthorFormat` emits nothing. The original
claim's "regardless of input punctuation or spacing" fails: lower-case or
period-free initials never match the author pattern at all (see the
counterexample). -/
theorem C6_initials_normalization :
    (∀ s : String, ∀ a ∈ parseAuthors s, isCanonicalInitials a.initials = true)
    ∧ (parseCitation "Kim, B.Y. (2024). Sleep and memory. Journal of Psychology, 45(2), 123-145.").authors.map
        (fun a => (a.lastName, a.initials, a.isGroupAuthor)) = [("Kim", "B. Y.", false)]
    ∧ (parseCitation "World Health Organization. (2024). Global health report. WHO Press.").authors.map
        (fun a => (a.lastName, a.initials, a.isGroupAuthor))
        = [("World Health Organization", "", true)]
    ∧ checkAuthorFormat
        (parseCitation "World Health Organization. (2024). Global health report. WHO Press.") = [] := by
  refine ⟨?_, by decide, by decide, by decide⟩
  intro s a ha
  unfold parseAuthors at ha
  dsimp only at ha
  split at ha <;> (try split at ha) <;> (try split at ha) <;>
  first
    | exact absurd ha (List.not_mem_nil a)
    | (rw [List.mem_singleton] at ha
       subst ha
       rfl)
    | (rw [List.mem_flatMap] at ha
       obtain ⟨part, -, ha⟩ := ha
       rw [List.mem_filterMap] at ha
       obtain ⟨caps, -, hf⟩ := ha
       rcases h1 : capGet caps 1 with - | m1 <;> rw [h1] at hf
       · exact absurd hf (by simp)
       · rcases h2 : capGet caps 2 with - | m2 <;> rw [h2] at hf
         · exact absurd hf (by simp)
         · simp only [Option.some.injEq] at hf
           rw [← hf]
           exact normalizeInitials_canonical _)

/-- Witness: the universal part applied at the author block "Kim, B. Y."
and its parsed author, whose initials are canonical. -/
theorem C6_initials_normalization_witness :
    ({ lastName := "Kim", initials := "B. Y." } : Author) ∈ parseAuthors "Kim, B. Y."
    ∧ isCanonicalInitials ({ lastName := "Kim", initials := "B. Y." } : Author).initials = true :=
  ⟨by decide,
   C6_initials_normalization.1 "Kim, B. Y." _ (by decide)⟩

/-- Counterexample to C6 as stated: initials written "b.y." or "B Y" do not
normalize to "B. Y." — the author regex requires capital-letter-plus-period
initials, so both inputs fall through to the group-author fallback with
empty initials. -/
theorem C6_counterexample :
    (parseAuthors "Kim, b.y.").map (fun a => (a.lastName, a.initials, a.isGroupAuthor))
      = [("Kim, b.y", "", true)]
    ∧ (parseAuthors "Kim, B Y").map (fun a => (a.lastName, a.initials, a.isGroupAuthor))
      = [("Kim, B Y", "", true)]
    ∧ ¬ (∃ a ∈ parseAuthors "Kim, b.y.", a.initials = "B. Y.")
    ∧ ¬ (∃ a ∈ parseAuthors "Kim, B Y", a.initials = "B. Y.") := by
  refine ⟨by decide, by decide, by decide, by decide⟩

/-! ## Claim C9: journal-to-chapter CrossRef correction -/

lemma journalToChapter_eq (b : ParsedCitation) (w : CrossRefWork) :
    journalToChapter b w =
      { b with
          volume := none,
          issue := none,
          pages := if optTruthy b.volume && optTruthy b.pages then
              some (optStr b.volume ++ "-" ++ dropLeadDash (optStr b.pages))
            else if optTruthy b.volume && !optTruthy b.pages then b.volume
            else b.pages,
          source := if b.source ≠ "" && !jsStartsWith b.source "In " then "In " ++ b.source
            else b.source,
          publisher := if optTruthy w.publisher then w.publisher else b.publisher,
          editors := if w.editors.isSome && !(w.editors.getD []).isEmpty then w.editors
            else b.editors,
          edition := if editionGreaterOne w then w.edition else b.edition } := by
  by_cases h3a : b.source = "" <;>
    cases h3b : jsStartsWith b.source "In " <;>
    cases h1 : optTruthy b.volume <;> cases h2 : optTruthy b.pages <;>
    cases h4 : optTruthy w.publisher <;>
    cases h5 : (w.editors.isSome && !(w.editors.getD []).isEmpty) <;>
    cases h6 : editionGreaterOne w <;>
    simp [journalToChapter, h1, h2, h3a, h3b, h4, h5, h6]

lemma correct_journal_chapter (c : ParsedCitation) (w : CrossRefWork)
    (hj : c.ctype = CType.journal) (hc : mapCrossRefType w.crType = CType.chapter) :
    correctCitationWithCrossRef c w
      = (journalToChapter { addDoiAndPages c w with ctype := CType.chapter } w, true) := by
  simp [correctCitationWithCrossRef, hc, hj]

/-- C9: when the CrossRef type maps to chapter while the local type is
journal, `correctCitationWithCrossRef` flags the change, retypes the record
as a chapter, clears volume and issue, reinterprets the volume as the start
of the page range (joining it with a dash to the existing page fragment
stripped of a leading dash, or using it alone when no pages exist), prefixes
the source with "In " when not already present, copies publisher and editors
from the CrossRef record when provided, copies the edition only when its
parsed numeric value exceeds 1, and validation then reports exactly one
`typeMismatch` violation, of info severity and not auto-fixable. Field
references are relative to the record after the DOI/pages enrichment step
`addDoiAndPages`. -/
theorem C9_journal_to_chapter (c : ParsedCitation) (w : CrossRefWork)
    (hj : c.ctype = CType.journal) (hc : mapCrossRefType w.crType = CType.chapter) :
    (correctCitationWithCrossRef c w).2 = true
    ∧ (correctCitationWithCrossRef c w).1.ctype = CType.chapter
    ∧ (correctCitationWithCrossRef c w).1.volume = none
    ∧ (correctCitationWithCrossRef c w).1.issue = none
    ∧ (correctCitationWithCrossRef c w).1.pages =
        (if optTruthy (addDoiAndPages c w).volume && optTruthy (addDoiAndPages c w).pages then
          some (optStr (addDoiAndPages c w).volume ++ "-" ++
            dropLeadDash (optStr (addDoiAndPages c w).pages))
        else if optTruthy (addDoiAndPages c w).volume &&
            !optTruthy (addDoiAndPages c w).pages then
          (addDoiAndPages c w).volume
        else (addDoiAndPages c w).pages)
    ∧ (correctCitationWithCrossRef c w).1.source =
        (if (addDoiAndPages c w).source ≠ "" &&
            !jsStartsWith (addDoiAndPages c w).source "In " then
          "In " ++ (addDoiAndPages c w).source
        else (addDoiAndPages c w).source)
    ∧ (correctCitationWithCrossRef c w).1.publisher =
        (if optTruthy w.publisher then w.publisher else (addDoiAndPages c w).publisher)
    ∧ (correctCitationWithCrossRef c w).1.editors =
        (if w.editors.isSome && !(w.editors.getD []).isEmpty then w.editors
         else (addDoiAndPages c w).editors)
    ∧ (correctCitationWithCrossRef c w).1.edition =
        (if editionGreaterOne w then w.edition else (addDoiAndPages c w).edition)
    ∧ ((errorsAfterValidation (correctCitationWithCrossRef c w).1
          (correctCitationWithCrossRef c w).2).filter
        (fun v => v.rule = "typeMismatch")).length = 1
    ∧ (∀ v ∈ errorsAfterValidation (correctCitationWithCrossRef c w).1
          (correctCitationWithCrossRef c w).2,
        v.rule = "typeMismatch" → v.severity = Severity.info ∧ v.autoFixable = false) := by
  have hone : ∀ r : ParsedCitation,
      ((errorsAfterValidation r true).filter (fun v => v.rule = "typeMismatch")).length = 1 := by
    intro r
    unfold errorsAfterValidation
    rw [if_pos rfl, List.filter_append]
    have h : (runAllRules r).filter (fun v => decide (v.rule = "typeMismatch")) = [] := by
      rw [List.filter_eq_nil_iff]
      intro v hv
      simpa using (runAllRules_ok r v hv).1
    rw [h]
    simp [typeMismatchViolation]
  have hinfo : ∀ (r : ParsedCitation) (v : ValidationError),
      v ∈ errorsAfterValidation r true → v.rule = "typeMismatch" →
      v.severity = Severity.info ∧ v.autoFixable = false := by
    intro r v hv hr
    unfold errorsAfterValidation at hv
    rw [if_pos rfl] at hv
    rcases List.mem_append.mp hv with h | h
    · exact absurd hr (runAllRules_ok r v h).1
    · rw [List.mem_singleton] at h
      subst h
      exact ⟨rfl, rfl⟩
  rw [correct_journal_chapter c w hj hc, journalToChapter_eq]
  exact ⟨rfl, rfl, rfl, rfl, rfl, rfl, rfl, rfl, rfl, hone _, fun v hv hr => hinfo _ v hv hr⟩

/-- A concrete journal record with volume and pages. -/
def C9c : ParsedCitation :=
  { raw := "r", authors := [], year := "2024", title := "t",
    source := "Handbook of Things", ctype := CType.journal,
    volume := some "123", pages := some "145-160" }

/-- A concrete CrossRef work whose type maps to chapter. -/
def C9w : CrossRefWork :=
  { doi := "10.1/x", title := "t", authors := [], year := "2024", source := "s",
    crType := "book-chapter", publisher := some "Springer",
    editors := some [{ lastName := "Ed", initials := "E." }], edition := some "2" }

/-- Witness: the theorem applied to a concrete journal record and a concrete
book-chapter CrossRef work. -/
theorem C9_journal_to_chapter_witness :
    C9c.ctype = CType.journal ∧ mapCrossRefType C9w.crType = CType.chapter
    ∧ (correctCitationWithCrossRef C9c C9w).2 = true
    ∧ (correctCitationWithCrossRef C9c C9w).1.ctype = CType.chapter :=
  ⟨rfl, by decide, (C9_journal_to_chapter C9c C9w rfl (by decide)).1,
   (C9_journal_to_chapter C9c C9w rfl (by decide)).2.1⟩

end CV
